import Mathlib

/-!
Verification of the WordWeave backend (Python sources under src/backend/)
against its natural-language specification.  The Python code is shallowly
embedded: Python `str` becomes `List Char`, Python numbers become `ℚ`,
Python dictionaries with a fixed key schema become structures whose fields
are `Option`-valued (a `none` field models an absent key), and code that can
raise becomes `Except`.
-/

namespace WordWeave

/-- Python strings are modelled as lists of characters. -/
abbrev Str := List Char

/-- Coerce a Lean string literal into the model's string type. -/
def str (s : String) : Str := s.data

/-- The opening curly brace character. -/
def lbrace : Char := Char.ofNat 123

/-- The closing curly brace character. -/
def rbrace : Char := Char.ofNat 125

/-- ASCII whitespace recognised by Python `str.strip` and `str.isspace`
(Unicode-only space characters are outside the modelled alphabet). -/
def isSpaceCh (c : Char) : Bool :=
  c = ' ' || c = '\t' || c = '\n' || c = '\r' || c = '\x0b' || c = '\x0c'

/-- Python `s.strip()`: remove leading and trailing whitespace. -/
def pyStrip (s : Str) : Str :=
  ((s.dropWhile isSpaceCh).reverse.dropWhile isSpaceCh).reverse

/-- Python `str.lower` on one character (ASCII range; `lower` of the
non-ASCII part of Unicode is not modelled). -/
def pyLowerCh (c : Char) : Char :=
  if 'A' ≤ c && c ≤ 'Z' then Char.ofNat (c.toNat + 32) else c

/-- Python `s.lower()` over the modelled alphabet. -/
def pyLowerStr (s : Str) : Str := s.map pyLowerCh

/-- Python `max(lo, min(hi, x))`, the clamping idiom used by the sanitizer. -/
def clampQ (lo hi x : ℚ) : ℚ := max lo (min hi x)

/-- Python's `%` on numbers: the remainder has the sign of the divisor, so
for a positive modulus the result is in `[0, m)`. -/
def pymod (x m : ℚ) : ℚ := x - m * (⌊x / m⌋ : ℤ)

/-! ## Data model of the analysis object (theme_analyzer.py)

The analysis dictionary produced by the model / fallback and consumed by
`validate_and_sanitize_analysis`.  Every key that the sanitizer reads or
writes is a field here; `Option` encodes key presence. -/

/-- One entry of a secondary-emotions list: a dict with keys
`emotion` and `intensity`. -/
structure SecEntry where
  emotion : Option Str
  intensity : Option ℚ
deriving DecidableEq

/-- The `emotion` sub-object. -/
structure EmotionObj where
  primary : Option Str
  intensity : Option ℚ
  secondary : Option (List SecEntry)
deriving DecidableEq

/-- One entry of `colors.palette`. -/
structure ColorEntry where
  hex : Option Str
  weight : Option ℚ
  role : Option Str
deriving DecidableEq

/-- The `colors` sub-object. -/
structure ColorsObj where
  palette : Option (List ColorEntry)
  dominant_temperature : Option Str
  saturation_level : Option Str
deriving DecidableEq

/-- The `animation.timing` sub-object. -/
structure TimingObj where
  duration : Option ℚ
  stagger_delay : Option ℚ
  easing : Option Str
deriving DecidableEq

/-- The `animation.particles` sub-object. -/
structure ParticlesObj where
  enabled : Option Bool
  particle_type : Option Str
  density : Option ℚ
  speed : Option ℚ
deriving DecidableEq

/-- The `animation` sub-object. -/
structure AnimationObj where
  style : Option Str
  timing : Option TimingObj
  movement_type : Option Str
  particles : Option ParticlesObj
deriving DecidableEq

/-- The `imagery` sub-object. -/
structure ImageryObj where
  keywords : Option (List Str)
  category : Option Str
  visual_density : Option ℚ
deriving DecidableEq

/-- The `typography` sub-object. -/
structure TypographyObj where
  mood : Option Str
  font_weight : Option ℚ
  font_scale : Option ℚ
  line_height : Option ℚ
  letter_spacing : Option ℚ
  text_shadow : Option ℚ
deriving DecidableEq

/-- The `layout` sub-object. -/
structure LayoutObj where
  spacing_scale : Option ℚ
  border_radius : Option ℚ
  backdrop_blur : Option ℚ
  gradient_angle : Option ℚ
  opacity_variations : Option (List ℚ)
deriving DecidableEq

/-- The `metadata` sub-object. -/
structure MetadataObj where
  analysis_confidence : Option ℚ
  processing_notes : Option Str
deriving DecidableEq

/-- The whole analysis dictionary.  The `secondary` field models a possible
TOP-LEVEL `secondary` key of the dict: `validate_and_sanitize_analysis`
reads `data['secondary']` (not `data['emotion']['secondary']`), so whether
such a top-level key exists is observable. -/
structure Analysis where
  emotion : Option EmotionObj
  colors : Option ColorsObj
  animation : Option AnimationObj
  imagery : Option ImageryObj
  typography : Option TypographyObj
  layout : Option LayoutObj
  metadata : Option MetadataObj
  secondary : Option (List SecEntry)
deriving DecidableEq

/-- A raised Python exception from dictionary access. -/
inductive PyErr where
  | keyError (k : Str)
deriving DecidableEq

/-! ## validate_and_sanitize_analysis (theme_analyzer.py lines 472-524) -/

/-- The body of the loop `for emotion in data['secondary']`: clamp the
`intensity` of each entry when present. -/
def sanitizeSecList (l : List SecEntry) : List SecEntry :=
  l.map fun e => { e with intensity := e.intensity.map (clampQ 0 1) }

/-- Line 485: clamp `data['emotion']['intensity']` when present. -/
def clampEmotionObj (e : EmotionObj) : EmotionObj :=
  { e with intensity := e.intensity.map (clampQ 0 1) }

/-- Lines 495-496: the two timing clamps (keys are written with defaults). -/
def clampTimingObj (t : TimingObj) : TimingObj :=
  { t with
    duration := some (clampQ 500 5000 (t.duration.getD 2000))
    stagger_delay := some (clampQ 50 500 (t.stagger_delay.getD 150)) }

/-- Lines 501-505: the typography clamps (keys are written with defaults). -/
def clampTypoObj (t : TypographyObj) : TypographyObj :=
  { t with
    font_weight := some (clampQ 300 900 (t.font_weight.getD 400))
    font_scale := some (clampQ 0.8 1.5 (t.font_scale.getD 1.0))
    line_height := some (clampQ 1.2 2.0 (t.line_height.getD 1.6))
    letter_spacing := some (clampQ (-0.05) 0.2 (t.letter_spacing.getD 0.0))
    text_shadow := some (clampQ 0 4 (t.text_shadow.getD 0)) }

/-- Lines 510-516: the layout clamps, angle normalisation, and element-wise
opacity clamping (the opacity list is only touched when present). -/
def clampLayoutObj (l : LayoutObj) : LayoutObj :=
  { l with
    spacing_scale := some (clampQ 0.8 1.4 (l.spacing_scale.getD 1.0))
    border_radius := some (clampQ 0 20 (l.border_radius.getD 8))
    backdrop_blur := some (clampQ 0 20 (l.backdrop_blur.getD 4))
    gradient_angle := some (pymod (l.gradient_angle.getD 135) 360)
    opacity_variations := l.opacity_variations.map (·.map (clampQ 0.1 1.0)) }

/-- Lines 521-522: clamp a palette entry's weight when present. -/
def clampColorEntry (col : ColorEntry) : ColorEntry :=
  { col with weight := col.weight.map (clampQ 0.1 1.0) }

/-- Lines 483-490.  Clamps `data['emotion']['intensity']`; then, when the
emotion sub-object has a `secondary` key, iterates `data['secondary']` -
the TOP-LEVEL key - which raises `KeyError('secondary')` when that key is
absent, and otherwise clamps the intensities of the top-level list. -/
def sanitizeEmotionStep (data : Analysis) : Except PyErr Analysis :=
  match data.emotion with
  | none => .ok data
  | some e =>
    let d' : Analysis := { data with emotion := some (clampEmotionObj e) }
    match e.secondary with
    | none => .ok d'
    | some _ =>
      match d'.secondary with
      | none => .error (.keyError (str "secondary"))
      | some l => .ok { d' with secondary := some (sanitizeSecList l) }

/-- Lines 493-496: animation timing clamps with defaults. -/
def sanitizeAnimStep (data : Analysis) : Analysis :=
  match data.animation with
  | none => data
  | some an =>
    match an.timing with
    | none => data
    | some t =>
      { data with animation := some ({ an with timing := some (clampTimingObj t) }) }

/-- Lines 499-505: typography clamps with defaults. -/
def sanitizeTypoStep (data : Analysis) : Analysis :=
  match data.typography with
  | none => data
  | some t => { data with typography := some (clampTypoObj t) }

/-- Lines 508-516: layout clamps, angle normalisation, and element-wise
opacity clamping (only when the `opacity_variations` key is present). -/
def sanitizeLayoutStep (data : Analysis) : Analysis :=
  match data.layout with
  | none => data
  | some l => { data with layout := some (clampLayoutObj l) }

/-- Lines 519-522: clamp every palette colour weight that is present. -/
def sanitizeColorStep (data : Analysis) : Analysis :=
  match data.colors with
  | none => data
  | some c =>
    match c.palette with
    | none => data
    | some pal =>
      { data with colors := some ({ c with palette := some (pal.map clampColorEntry) }) }

/-- `validate_and_sanitize_analysis` (theme_analyzer.py lines 472-524).
The emotion step can raise `KeyError('secondary')`; all later steps are
total field updates applied in source order. -/
def validate_and_sanitize_analysis (data : Analysis) : Except PyErr Analysis :=
  match sanitizeEmotionStep data with
  | .error e => .error e
  | .ok d => .ok (sanitizeColorStep (sanitizeLayoutStep (sanitizeTypoStep (sanitizeAnimStep d))))

/-- An optional numeric field, when present, lies in `[lo, hi]`. -/
def inRangeQ (lo hi : ℚ) : Option ℚ → Prop
  | none => True
  | some x => lo ≤ x ∧ x ≤ hi

/-- A decidable check that an optional numeric field is present and lies in
`[lo, hi]`. -/
def okB (lo hi : ℚ) : Option ℚ → Bool
  | none => false
  | some x => decide (lo ≤ x) && decide (x ≤ hi)

/-! ## Concrete inputs used by the claims about the sanitizer -/

/-- An analysis whose `emotion` sub-object carries a `secondary` list while
the top-level dict has no `secondary` key - exactly the shape produced by
the documented model-output schema and by `create_fallback_analysis`. -/
def crashIn : Analysis :=
  { emotion := some
      { primary := some (str "joy"), intensity := some 0.5
        secondary := some [{ emotion := some (str "calm"), intensity := some 0.3 }] }
    colors := none, animation := none, imagery := none, typography := none
    layout := none, metadata := none, secondary := none }

/-- Layout input of end-to-end scenario 4: `gradient_angle = 450` and
`opacity_variations = [0.05, 1.5, -0.1]`. -/
def exLayoutIn : LayoutObj :=
  { spacing_scale := some 1.0, border_radius := some 8, backdrop_blur := some 4
    gradient_angle := some 450, opacity_variations := some [0.05, 1.5, -0.1] }

/-- Analysis carrying only `exLayoutIn`. -/
def exAnalysisIn : Analysis :=
  { emotion := none, colors := none, animation := none, imagery := none
    typography := none, layout := some exLayoutIn, metadata := none, secondary := none }

/-- What the sanitizer produces from `exAnalysisIn`. -/
def exAnalysisOut : Analysis :=
  { emotion := none, colors := none, animation := none, imagery := none
    typography := none
    layout := some
      { spacing_scale := some 1.0, border_radius := some 8, backdrop_blur := some 4
        gradient_angle := some 90, opacity_variations := some [0.1, 1.0, 0.1] }
    metadata := none, secondary := none }

/-- Analysis whose layout has a negative `gradient_angle` and nothing else. -/
def exNegIn : Analysis :=
  { emotion := none, colors := none, animation := none, imagery := none
    typography := none
    layout := some
      { spacing_scale := none, border_radius := none, backdrop_blur := none
        gradient_angle := some (-90), opacity_variations := none }
    metadata := none, secondary := none }

/-- What the sanitizer produces from `exNegIn`: the angle normalises to the
non-negative `270` and the absent numeric keys are written with their
(clamped) defaults. -/
def exNegOut : Analysis :=
  { emotion := none, colors := none, animation := none, imagery := none
    typography := none
    layout := some
      { spacing_scale := some 1.0, border_radius := some 8, backdrop_blur := some 4
        gradient_angle := some 270, opacity_variations := none }
    metadata := none, secondary := none }

/-! ## C3: validity of a fully-populated analysis, and identity of the
sanitizer on it -/

/-- The emotion sub-object is fully populated with an in-range intensity and
no secondary list. -/
def validEmotionNoSecB (e : EmotionObj) : Bool :=
  e.primary.isSome && e.secondary.isNone && okB 0 1 e.intensity

/-- The timing sub-object is fully populated and in range. -/
def validTimingB (tm : TimingObj) : Bool :=
  tm.easing.isSome && okB 500 5000 tm.duration && okB 50 500 tm.stagger_delay

/-- The animation sub-object is fully populated and in range. -/
def validAnimB (an : AnimationObj) : Bool :=
  an.style.isSome && an.movement_type.isSome && an.particles.isSome &&
  (match an.timing with
   | some tm => validTimingB tm
   | none => false)

/-- The typography sub-object is fully populated and in range. -/
def validTypoB (t : TypographyObj) : Bool :=
  t.mood.isSome && okB 300 900 t.font_weight && okB 0.8 1.5 t.font_scale &&
  okB 1.2 2.0 t.line_height && okB (-0.05) 0.2 t.letter_spacing && okB 0 4 t.text_shadow

/-- The layout sub-object is fully populated and in range (with the angle
already normalised into `[0, 360)`). -/
def validLayoutB (l : LayoutObj) : Bool :=
  okB 0.8 1.4 l.spacing_scale && okB 0 20 l.border_radius && okB 0 20 l.backdrop_blur &&
  (match l.gradient_angle with
   | some g => decide (0 ≤ g) && decide (g < 360)
   | none => false) &&
  (match l.opacity_variations with
   | some ops => ops.all fun o => decide ((0.1:ℚ) ≤ o) && decide (o ≤ 1.0)
   | none => false)

/-- A palette entry is fully populated with an in-range weight. -/
def validColorEntryB (col : ColorEntry) : Bool :=
  col.hex.isSome && col.role.isSome && okB 0.1 1.0 col.weight

/-- The colors sub-object is fully populated and in range. -/
def validColorsB (c : ColorsObj) : Bool :=
  c.dominant_temperature.isSome && c.saturation_level.isSome &&
  (match c.palette with
   | some pal => pal.all validColorEntryB
   | none => false)

/-- A fully-populated analysis, all numeric fields in range, whose emotion
sub-object has no secondary list and whose top-level dict has no
`secondary` key. -/
def isValidFullNoSec (a : Analysis) : Bool :=
  a.imagery.isSome && a.metadata.isSome && a.secondary.isNone &&
  (match a.emotion with
   | some e => validEmotionNoSecB e
   | none => false) &&
  (match a.animation with
   | some an => validAnimB an
   | none => false) &&
  (match a.typography with
   | some t => validTypoB t
   | none => false) &&
  (match a.layout with
   | some l => validLayoutB l
   | none => false) &&
  (match a.colors with
   | some c => validColorsB c
   | none => false)

/-- A fully-populated analysis, every numeric field already in range,
including a secondary-emotions list on the emotion sub-object. -/
def fullValidWithSec : Analysis :=
  { emotion := some
      { primary := some (str "joy"), intensity := some 0.75
        secondary := some [{ emotion := some (str "calm"), intensity := some 0.3 }] }
    colors := some
      { palette := some [{ hex := some (str "#4a5568"), weight := some 0.8, role := some (str "primary") }]
        dominant_temperature := some (str "neutral"), saturation_level := some (str "medium") }
    animation := some
      { style := some (str "calm")
        timing := some { duration := some 2000, stagger_delay := some 150, easing := some (str "ease-out") }
        movement_type := some (str "fade")
        particles := some
          { enabled := some false, particle_type := some (str "dust")
            density := some 0.2, speed := some 0.5 } }
    imagery := some
      { keywords := some [str "abstract"], category := some (str "abstract")
        visual_density := some 0.5 }
    typography := some
      { mood := some (str "modern"), font_weight := some 400, font_scale := some 1.0
        line_height := some 1.6, letter_spacing := some 0.0, text_shadow := some 0 }
    layout := some
      { spacing_scale := some 1.0, border_radius := some 8, backdrop_blur := some 4
        gradient_angle := some 135, opacity_variations := some [0.9, 0.6, 0.3] }
    metadata := some
      { analysis_confidence := some 0.3, processing_notes := some (str "note") }
    secondary := none }

/-- `fullValidWithSec` without the secondary-emotions list. -/
def fullValidNoSec : Analysis :=
  { fullValidWithSec with emotion := some (
      { primary := some (str "joy"), intensity := some 0.75, secondary := none }) }

/-! ## generate_cache_key (theme_analyzer.py lines 527-538)

The key is `hashlib.sha256(normalized.encode('utf-8')).hexdigest()` of
`poem_text.strip().lower().replace('\r\n', '\n').replace('\r', '\n')`.
SHA-256 and UTF-8 are external library calls; they are modelled here as
plain functions (FIPS 180-4 over byte lists), and the claims about the key
use only that equal inputs hash to equal digests. -/

/-- 2^32, the word modulus of SHA-256. -/
def M32 : ℕ := 4294967296

/-- Right rotation of a 32-bit word. -/
def rotr32 (n x : ℕ) : ℕ := ((x >>> n) ||| (x <<< (32 - n))) % M32

/-- Bitwise complement of a 32-bit word. -/
def not32 (x : ℕ) : ℕ := 4294967295 - (x % M32)

/-- The 64 SHA-256 round constants. -/
def shaK : List ℕ :=
  [1116352408, 1899447441, 3049323471, 3921009573, 961987163, 1508970993,
   2453635748, 2870763221, 3624381080, 310598401, 607225278, 1426881987,
   1925078388, 2162078206, 2614888103, 3248222580, 3835390401, 4022224774,
   264347078, 604807628, 770255983, 1249150122, 1555081692, 1996064986,
   2554220882, 2821834349, 2952996808, 3210313671, 3336571891, 3584528711,
   113926993, 338241895, 666307205, 773529912, 1294757372, 1396182291,
   1695183700, 1986661051, 2177026350, 2456956037, 2730485921, 2820302411,
   3259730800, 3345764771, 3516065817, 3600352804, 4094571909, 275423344,
   430227734, 506948616, 659060556, 883997877, 958139571, 1322822218,
   1537002063, 1747873779, 1955562222, 2024104815, 2227730452, 2361852424,
   2428436474, 2756734187, 3204031479, 3329325298]

/-- The 8 initial hash values of SHA-256. -/
def shaH0 : List ℕ :=
  [1779033703, 3144134277, 1013904242, 2773480762, 1359893119, 2600822924, 528734635, 1541459225]

/-- Big sigma 0. -/
def bsig0 (x : ℕ) : ℕ := rotr32 2 x ^^^ rotr32 13 x ^^^ rotr32 22 x

/-- Big sigma 1. -/
def bsig1 (x : ℕ) : ℕ := rotr32 6 x ^^^ rotr32 11 x ^^^ rotr32 25 x

/-- Small sigma 0. -/
def ssig0 (x : ℕ) : ℕ := rotr32 7 x ^^^ rotr32 18 x ^^^ (x >>> 3)

/-- Small sigma 1. -/
def ssig1 (x : ℕ) : ℕ := rotr32 17 x ^^^ rotr32 19 x ^^^ (x >>> 10)

/-- A number as 8 big-endian bytes. -/
def be64 (n : ℕ) : List ℕ :=
  [(n >>> 56) % 256, (n >>> 48) % 256, (n >>> 40) % 256, (n >>> 32) % 256,
   (n >>> 24) % 256, (n >>> 16) % 256, (n >>> 8) % 256, n % 256]

/-- A 32-bit word as 4 big-endian bytes. -/
def be32 (n : ℕ) : List ℕ := [(n >>> 24) % 256, (n >>> 16) % 256, (n >>> 8) % 256, n % 256]

/-- SHA-256 padding: 0x80, zeros, then the bit length, to a 64-byte multiple. -/
def shaPad (m : List ℕ) : List ℕ :=
  m ++ 128 :: List.replicate ((119 - m.length % 64) % 64) 0 ++ be64 (m.length * 8)

/-- Split into 64-byte chunks (the fuel is the list length, always enough). -/
def chunksGo : ℕ → List ℕ → List (List ℕ)
  | 0, _ => []
  | _ + 1, [] => []
  | fuel + 1, l => l.take 64 :: chunksGo fuel (l.drop 64)

/-- Big-endian 4-byte groups to 32-bit words. -/
def bytesToWords : List ℕ → List ℕ
  | b0 :: b1 :: b2 :: b3 :: rest =>
    (b0 * 16777216 + b1 * 65536 + b2 * 256 + b3) :: bytesToWords rest
  | _ => []

/-- Extend the 16-word schedule by `k` more words. -/
def extendW (w : List ℕ) : ℕ → List ℕ
  | 0 => w
  | k + 1 =>
    let v := extendW w k
    v ++ [(ssig1 (v.getD (v.length - 2) 0) + v.getD (v.length - 7) 0 +
           ssig0 (v.getD (v.length - 15) 0) + v.getD (v.length - 16) 0) % M32]

/-- The eight working variables of the compression loop. -/
structure Sha8 where
  a : ℕ
  b : ℕ
  c : ℕ
  d : ℕ
  e : ℕ
  f : ℕ
  g : ℕ
  h : ℕ

/-- One compression round; `kw` is the round constant plus schedule word. -/
def shaRound (s : Sha8) (kw : ℕ) : Sha8 :=
  let t1 := (s.h + bsig1 s.e + ((s.e &&& s.f) ^^^ (not32 s.e &&& s.g)) + kw) % M32
  let t2 := (bsig0 s.a + ((s.a &&& s.b) ^^^ (s.a &&& s.c) ^^^ (s.b &&& s.c))) % M32
  ⟨(t1 + t2) % M32, s.a, s.b, s.c, (s.d + t1) % M32, s.e, s.f, s.g⟩

/-- Run the 64 rounds over the constants and schedule. -/
def shaRounds : List ℕ → List ℕ → Sha8 → Sha8
  | k :: ks, w :: ws, s => shaRounds ks ws (shaRound s ((k + w) % M32))
  | _, _, s => s

/-- Process one 64-byte chunk. -/
def shaChunk (hs : List ℕ) (chunk : List ℕ) : List ℕ :=
  let w := extendW (bytesToWords chunk) 48
  let s := shaRounds shaK w
    ⟨hs.getD 0 0, hs.getD 1 0, hs.getD 2 0, hs.getD 3 0,
     hs.getD 4 0, hs.getD 5 0, hs.getD 6 0, hs.getD 7 0⟩
  [(hs.getD 0 0 + s.a) % M32, (hs.getD 1 0 + s.b) % M32, (hs.getD 2 0 + s.c) % M32,
   (hs.getD 3 0 + s.d) % M32, (hs.getD 4 0 + s.e) % M32, (hs.getD 5 0 + s.f) % M32,
   (hs.getD 6 0 + s.g) % M32, (hs.getD 7 0 + s.h) % M32]

/-- Models `hashlib.sha256(...).digest()`: SHA-256 of a byte list. -/
def sha256bytes (msg : List ℕ) : List ℕ :=
  let padded := shaPad msg
  ((chunksGo (padded.length + 1) padded).foldl shaChunk shaH0).foldr
    (fun w acc => be32 w ++ acc) []

/-- One lowercase hexadecimal digit. -/
def hexDigitCh (n : ℕ) : Char :=
  if n < 10 then Char.ofNat (48 + n) else Char.ofNat (87 + n)

/-- Models `.hexdigest()`: bytes as lowercase hex text. -/
def hexdigestStr (bytes : List ℕ) : Str :=
  bytes.foldr (fun b acc => hexDigitCh (b / 16) :: hexDigitCh (b % 16) :: acc) []

/-- Models `str.encode('utf-8')` for one character. -/
def utf8Char (c : Char) : List ℕ :=
  let n := c.toNat
  if n < 128 then [n]
  else if n < 2048 then [192 + n / 64, 128 + n % 64]
  else if n < 65536 then [224 + n / 4096, 128 + n / 64 % 64, 128 + n % 64]
  else [240 + n / 262144, 128 + n / 4096 % 64, 128 + n / 64 % 64, 128 + n % 64]

/-- Models `str.encode('utf-8')`. -/
def utf8Encode (s : Str) : List ℕ := s.foldr (fun c acc => utf8Char c ++ acc) []

/-- Python `s.replace('\r\n', '\n')`: left-to-right, non-overlapping. -/
def replCRLF : Str → Str
  | [] => []
  | [c] => [c]
  | c :: d :: rest =>
    if c = '\r' ∧ d = '\n' then '\n' :: replCRLF rest
    else c :: replCRLF (d :: rest)

/-- Python `s.replace('\r', '\n')`. -/
def replCR (s : Str) : Str := s.map fun c => if c = '\r' then '\n' else c

/-- The normalisation inside `generate_cache_key` (theme_analyzer.py
line 537): strip, lower, then collapse CRLF and CR to LF. -/
def normalizePoem (s : Str) : Str := replCR (replCRLF (pyLowerStr (pyStrip s)))

/-- `generate_cache_key` (theme_analyzer.py lines 527-538). -/
def generate_cache_key (poem_text : Str) : Str :=
  hexdigestStr (sha256bytes (utf8Encode (normalizePoem poem_text)))

/-- One line-ending token at the front of a remainder: CRLF, LF, or a CR not
followed by LF (so that CRLF pairs are never split across tokens). -/
def NLTok (t r : Str) : Prop :=
  t = ['\r', '\n'] ∨ t = ['\n'] ∨ (t = ['\r'] ∧ r.head? ≠ some '\n')

/-- Two strings differ only by letter case and by the choice of line-ending
(CRLF / CR / LF).  This is the spec's relation, written independently of the
code's replace-then-replace order. -/
inductive PoemEquiv : Str → Str → Prop where
  | nil : PoemEquiv [] []
  | ch {c d : Char} {x y : Str} : c ≠ '\r' → c ≠ '\n' → d ≠ '\r' → d ≠ '\n' →
      pyLowerCh c = pyLowerCh d → PoemEquiv x y → PoemEquiv (c :: x) (d :: y)
  | nl {s t x y : Str} : NLTok s x → NLTok t y → PoemEquiv x y →
      PoemEquiv (s ++ x) (t ++ y)

/-- The tail of the normalisation (lower, then both newline replacements). -/
def normTail (s : Str) : Str := replCR (replCRLF (pyLowerStr s))

/-! ## extract_json_from_response (lambda_function.py lines 458-480)

The code runs `re.search(r'\x7b[\s\S]*\x7d', content)`: the leftmost match
starts at the first brace that has a closing brace somewhere after it, and
the greedy `[\s\S]*` extends the match to the LAST closing brace of the
whole text.  `json.loads` (an external library call) is modelled by a
recursive-descent parser of the JSON grammar (without the `\uXXXX` string
escape). -/

/-- The JSON value tree produced by `json.loads`. -/
inductive Json where
  | null
  | bool (b : Bool)
  | num (q : ℚ)
  | str (s : Str)
  | arr (elems : List Json)
  | obj (members : List (Str × Json))

/-- JSON whitespace. -/
def jsonWs (c : Char) : Bool := c = ' ' || c = '\t' || c = '\n' || c = '\r'

/-- The single-character string escapes of JSON. -/
def jsonEscape (c : Char) : Option Char :=
  if c = '"' then some '"'
  else if c = '\\' then some '\\'
  else if c = '/' then some '/'
  else if c = 'b' then some '\x08'
  else if c = 'f' then some '\x0c'
  else if c = 'n' then some '\n'
  else if c = 'r' then some '\r'
  else if c = 't' then some '\t'
  else none

/-- Parse the rest of a JSON string (after the opening quote); returns the
decoded text and the remainder after the closing quote. -/
def parseJString : Str → Option (Str × Str)
  | [] => none
  | c :: rest =>
    if c = '"' then some ([], rest)
    else if c = '\\' then
      match rest with
      | [] => none
      | e :: rest2 =>
        match jsonEscape e with
        | none => none
        | some ch =>
          match parseJString rest2 with
          | none => none
          | some (s, r) => some (ch :: s, r)
    else if c.toNat < 32 then none
    else
      match parseJString rest with
      | none => none
      | some (s, r) => some (c :: s, r)

/-- Is the character an ASCII digit. -/
def isDigitCh (c : Char) : Bool := '0' ≤ c && c ≤ '9'

/-- Digits to the natural number they denote. -/
def digitsToNat (ds : List Char) : ℕ := ds.foldl (fun acc c => acc * 10 + (c.toNat - 48)) 0

/-- Parse a JSON number (integer part, optional fraction, optional exponent;
leading zeros rejected as in the JSON grammar). -/
def parseJNumber (s : Str) : Option (ℚ × Str) :=
  let ns : Bool × Str :=
    match s with
    | '-' :: r => (true, r)
    | _ => (false, s)
  let ds := ns.2.takeWhile isDigitCh
  let r1 := ns.2.dropWhile isDigitCh
  if ds = [] then none
  else if 1 < ds.length ∧ ds.head? = some '0' then none
  else
    let ip : ℚ := (digitsToNat ds : ℚ)
    let fracRes : Option (ℚ × Str) :=
      match r1 with
      | '.' :: rf =>
        let fds := rf.takeWhile isDigitCh
        if fds = [] then none
        else some (ip + (digitsToNat fds : ℚ) / (10 : ℚ) ^ fds.length, rf.dropWhile isDigitCh)
      | _ => some (ip, r1)
    match fracRes with
    | none => none
    | some (v1, r2) =>
      let expRes : Option (ℚ × Str) :=
        match r2 with
        | e :: re =>
          if e = 'e' ∨ e = 'E' then
            let sr : Bool × Str :=
              match re with
              | '+' :: rr => (false, rr)
              | '-' :: rr => (true, rr)
              | _ => (false, re)
            let eds := sr.2.takeWhile isDigitCh
            if eds = [] then none
            else some
              (if sr.1 then v1 / (10 : ℚ) ^ digitsToNat eds else v1 * (10 : ℚ) ^ digitsToNat eds,
               sr.2.dropWhile isDigitCh)
          else some (v1, r2)
        | [] => some (v1, r2)
      match expRes with
      | none => none
      | some (v2, r3) => some (if ns.1 then -v2 else v2, r3)

mutual

/-- Parse one JSON value (fuel-bounded recursive descent). -/
def parseJValue : ℕ → Str → Option (Json × Str)
  | 0, _ => none
  | fuel + 1, s0 =>
    match s0.dropWhile jsonWs with
    | [] => none
    | c :: rest =>
      if c = 'n' then
        match rest with
        | 'u' :: 'l' :: 'l' :: r => some (.null, r)
        | _ => none
      else if c = 't' then
        match rest with
        | 'r' :: 'u' :: 'e' :: r => some (.bool true, r)
        | _ => none
      else if c = 'f' then
        match rest with
        | 'a' :: 'l' :: 's' :: 'e' :: r => some (.bool false, r)
        | _ => none
      else if c = '"' then
        match parseJString rest with
        | some (t, r) => some (.str t, r)
        | none => none
      else if c = lbrace then
        match rest.dropWhile jsonWs with
        | d :: r2 =>
          if d = rbrace then some (.obj [], r2)
          else parseJMembers fuel rest []
        | [] => none
      else if c = '[' then
        match rest.dropWhile jsonWs with
        | d :: r2 =>
          if d = ']' then some (.arr [], r2)
          else parseJElems fuel rest []
        | [] => none
      else if c = '-' ∨ isDigitCh c then
        match parseJNumber (c :: rest) with
        | some (q, r) => some (.num q, r)
        | none => none
      else none

/-- Parse `"key": value (, "key": value)* rbrace` and close the object. -/
def parseJMembers : ℕ → Str → List (Str × Json) → Option (Json × Str)
  | 0, _, _ => none
  | fuel + 1, s0, acc =>
    match s0.dropWhile jsonWs with
    | '"' :: r1 =>
      match parseJString r1 with
      | none => none
      | some (k, r2) =>
        match r2.dropWhile jsonWs with
        | ':' :: r3 =>
          match parseJValue fuel r3 with
          | none => none
          | some (v, r4) =>
            match r4.dropWhile jsonWs with
            | ',' :: r5 => parseJMembers fuel r5 (acc ++ [(k, v)])
            | d :: r5 => if d = rbrace then some (.obj (acc ++ [(k, v)]), r5) else none
            | [] => none
        | _ => none
    | _ => none

/-- Parse `value (, value)* ]` and close the array. -/
def parseJElems : ℕ → Str → List Json → Option (Json × Str)
  | 0, _, _ => none
  | fuel + 1, s0, acc =>
    match parseJValue fuel s0 with
    | none => none
    | some (v, r1) =>
      match r1.dropWhile jsonWs with
      | ',' :: r2 => parseJElems fuel r2 (acc ++ [v])
      | ']' :: r2 => some (.arr (acc ++ [v]), r2)
      | _ => none

end

/-- Models `json.loads`: parse one value, allow surrounding whitespace,
require the rest to be empty. -/
def json_loads (s : Str) : Option Json :=
  match parseJValue (2 * s.length + 2) s with
  | some (v, r) => if r.dropWhile jsonWs = [] then some v else none
  | none => none

/-- The span matched by `re.search(r'\x7b[\s\S]*\x7d', content)`: from the
first opening brace (provided some closing brace follows it - if not, no
later opening brace has one after it either, so there is no match) to the
last closing brace of the text, greedily. -/
def greedySpan (s : Str) : Option Str :=
  match s.dropWhile (fun c => decide (c ≠ lbrace)) with
  | [] => none
  | c :: rest =>
    if rbrace ∈ rest then
      some (c :: (rest.reverse.dropWhile (fun x => decide (x ≠ rbrace))).reverse)
    else none

/-- `extract_json_from_response` (lambda_function.py lines 458-480): parse
the greedy brace span, or the whole content when there is no span; a parse
failure raises (the sibling in theme_analyzer.py lines 378-401 returns the
fixed fallback analysis instead of raising). -/
def extract_json_from_response (content : Str) : Except Str Json :=
  match greedySpan content with
  | some span =>
    match json_loads span with
    | some j => .ok j
    | none => .error (str "Failed to parse Claude response as JSON")
  | none =>
    match json_loads content with
    | some j => .ok j
    | none => .error (str "Failed to parse Claude response as JSON")

/-- A raw model output containing a balanced JSON object followed by one
stray closing brace. -/
def c6Obj : Str := str "\x7b\"a\": 1\x7d"

/-- `c6Obj` with a stray closing brace after it. -/
def c6Bad : Str := str "\x7b\"a\": 1\x7d\x7d"

/-! ## analyze_theme_with_retry (theme_analyzer.py lines 128-167) and the
error wrapping in analyze_theme_with_bedrock (lines 355-375) -/

/-- AWS error codes of interest (`ThrottlingException`,
`ValidationException`, `AccessDeniedException`, anything else). -/
inductive AwsErrCode where
  | throttling
  | validation
  | accessDenied
  | other (code : Str)
deriving DecidableEq

/-- A raised Python exception as the retry wrapper distinguishes them:
a botocore `ClientError` (with its AWS error code) or any other
`Exception`. -/
inductive PyExn where
  | clientError (code : AwsErrCode) (msg : Str)
  | generic (msg : Str)
deriving DecidableEq

/-- The outcome of one attempt of the Bedrock invocation pipeline inside
`analyze_theme_with_bedrock` (invoke_model, body parse, JSON extraction,
metadata): success carries the parsed analysis dict handed to the
sanitizer. -/
inductive BedrockOutcome where
  | success (d : Analysis)
  | clientErr (code : AwsErrCode) (msg : Str)
  | botoCoreErr (msg : Str)
  | otherErr (msg : Str)

/-- The message of the generic `Exception` that lines 360-367 raise for
each `ClientError` code. -/
def bedrockErrMsg : AwsErrCode → Str → Str
  | .throttling, _ => str "Analysis service is currently busy. Please try again in a moment."
  | .validation, _ => str "Invalid analysis request format."
  | .accessDenied, _ => str "Access denied to analysis service."
  | .other _, m => str "Analysis service error: " ++ m

/-- `analyze_theme_with_bedrock` (theme_analyzer.py lines 170-375), as a
function of the attempt's outcome.  On success the parsed data is
sanitized (line 350); a `KeyError` from the sanitizer is caught by the
final `except Exception` (line 373).  Every error path re-raises a plain
`Exception` (lines 361, 363, 365, 367, 371, 375): no `ClientError` ever
escapes this function. -/
def analyze_theme_with_bedrock (o : BedrockOutcome) : Except PyExn Analysis :=
  match o with
  | .success d =>
    match validate_and_sanitize_analysis d with
    | .ok d' => .ok d'
    | .error _ => .error (.generic (str "Failed to complete theme analysis."))
  | .clientErr c m => .error (.generic (bedrockErrMsg c m))
  | .botoCoreErr _ => .error (.generic (str "AWS service connection error during analysis."))
  | .otherErr _ => .error (.generic (str "Failed to complete theme analysis."))

/-- `MAX_RETRIES` (theme_analyzer.py line 26). -/
def MAX_RETRIES : ℕ := 3

/-- `BASE_DELAY` in seconds (line 27). -/
def BASE_DELAY : ℚ := 1

/-- `MAX_DELAY` in seconds (line 28). -/
def MAX_DELAY : ℚ := 16

/-- The loop of `analyze_theme_with_retry` (lines 140-164): `call n` is the
result of attempt `n` (0-based), `j n` the `random.uniform(0, 1)` jitter
drawn before the sleep after attempt `n`.  Returns the result and the list
of slept delays.  A `ClientError` retries only for `ThrottlingException`
and sleeps `min(BASE_DELAY * 2^attempt + jitter, MAX_DELAY)`; any other
exception retries with `min(BASE_DELAY * 2^attempt, MAX_DELAY)` and no
jitter.  The fuel mirrors `range(MAX_RETRIES)`; the fuel-0 case is the
`raise last_exception` after the loop, unreachable from the top entry. -/
def retryGo (call : ℕ → Except PyExn Analysis) (j : ℕ → ℚ) :
    ℕ → ℕ → PyExn → Except PyExn Analysis × List ℚ
  | _, 0, last => (.error last, [])
  | attempt, fuel + 1, _ =>
    match call attempt with
    | .ok d => (.ok d, [])
    | .error e =>
      match e with
      | .clientError c _ =>
        if c = .throttling ∧ attempt < MAX_RETRIES - 1 then
          let r := retryGo call j (attempt + 1) fuel e
          (r.1, min (BASE_DELAY * 2 ^ attempt + j attempt) MAX_DELAY :: r.2)
        else (.error e, [])
      | .generic _ =>
        if attempt < MAX_RETRIES - 1 then
          let r := retryGo call j (attempt + 1) fuel e
          (r.1, min (BASE_DELAY * 2 ^ attempt) MAX_DELAY :: r.2)
        else (.error e, [])

/-- `analyze_theme_with_retry` (lines 128-167) over an abstract per-attempt
call. -/
def analyze_theme_with_retry (call : ℕ → Except PyExn Analysis) (j : ℕ → ℚ) :
    Except PyExn Analysis × List ℚ :=
  retryGo call j 0 MAX_RETRIES (.generic (str "unreachable"))

/-- The theme-analysis retry pipeline as deployed: the wrapper around
`analyze_theme_with_bedrock` on a stream of attempt outcomes. -/
def themeRetry (o : ℕ → BedrockOutcome) (j : ℕ → ℚ) : Except PyExn Analysis × List ℚ :=
  analyze_theme_with_retry (fun n => analyze_theme_with_bedrock (o n)) j

/-- Oracle for the C4 counterexample: Bedrock denies access on every
attempt. -/
def c4Oracle : ℕ → BedrockOutcome := fun _ => .clientErr .accessDenied (str "denied")

/-! ## The fallback generator and the frontend transform
(lambda_function.py lines 679-873 and 917-1101) -/

/-- Does `t` occur at the start of `s`. -/
def startsWith : Str → Str → Bool
  | [], _ => true
  | _ :: _, [] => false
  | p :: ps, c :: cs => p = c && startsWith ps cs

/-- Python `t in s` substring test. -/
def containsSub (t : Str) : Str → Bool
  | [] => decide (t = [])
  | c :: cs => startsWith t (c :: cs) || containsSub t cs

/-- First-match association lookup with a default (Python
`dict.get(k, d)` over a literal dict with distinct keys). -/
def lookupD (m : List (Str × Str)) (k : Str) (d : Str) : Str :=
  ((m.find? fun p => decide (p.1 = k)).map (·.2)).getD d

/-- One entry of `metaphors.identified`. -/
structure MetaphorEntry where
  line : ℚ
  text : Str
  mtype : Str

/-- `rhyme.typography` of the backend analysis. -/
structure BackTypography where
  font_style : Option Str
  line_spacing : Option ℚ
  text_alignment : Option Str

/-- The `rhyme` sub-object of the backend analysis. -/
structure BackRhyme where
  scheme : Option Str
  density : Option ℚ
  typography : Option BackTypography

/-- `rhythm.animation_timing` of the backend analysis. -/
structure BackTiming where
  base_duration : Option ℚ
  stagger_pattern : Option (List ℚ)
  easing_function : Option Str

/-- The `rhythm` sub-object of the backend analysis. -/
structure BackRhythm where
  rhythm_type : Option Str
  animation_timing : Option BackTiming

/-- `temporal.background_suggestions` of the backend analysis. -/
structure BackBgSuggestions where
  gradient_colors : Option (List Str)

/-- The `temporal` sub-object of the backend analysis. -/
structure BackTemporal where
  background_suggestions : Option BackBgSuggestions

/-- The `traditional` sub-object of the backend analysis. -/
structure BackTraditional where
  theme : Option Str
  mood : Option Str
  dominant_colors : Option (List Str)
  emotion : Option Str
  imagery_type : Option Str
  line_count : Option ℚ

/-- The `metaphors` sub-object of the backend analysis. -/
structure BackMetaphors where
  identified : Option (List MetaphorEntry)

/-- The backend analysis shape read by
`transform_analysis_for_frontend`. -/
structure BackendAnalysis where
  rhyme : Option BackRhyme
  metaphors : Option BackMetaphors
  rhythm : Option BackRhythm
  temporal : Option BackTemporal
  traditional : Option BackTraditional

/-- `visualRecommendations.colors` of the frontend analysis. -/
structure FxColors where
  primary : Str
  secondary : Str
  accent : Str
  background : Str
  gradient : List Str

/-- `visualRecommendations.typography` of the frontend analysis. -/
structure FxTypography where
  fontFamily : Str
  fontWeight : Str
  letterSpacing : Str
  lineHeight : ℚ
  fontSize : Str

/-- `visualRecommendations.animations` of the frontend analysis. -/
structure FxAnimations where
  duration : ℚ
  easing : Str
  stagger : ℚ
  style : Str

/-- `visualRecommendations.layout` of the frontend analysis. -/
structure FxLayout where
  layout_style : Str
  alignment : Str
  spacing : Str

/-- `visualRecommendations.effects` of the frontend analysis. -/
structure FxEffects where
  blur : Bool
  glow : Bool
  shadow : Bool
  gradient : Bool

/-- `visualRecommendations` of the frontend analysis. -/
structure VisualRecs where
  colors : FxColors
  typography : FxTypography
  animations : FxAnimations
  layout : FxLayout
  effects : FxEffects

/-- `themeAnalysis.emotional_tone` of the frontend analysis. -/
structure EmotionalTone where
  primary : Str
  secondary : Option Str
  intensity : Str
  scores : List (Str × ℚ)

/-- `themeAnalysis.word_analysis` of the frontend analysis. -/
structure WordAnalysisFx where
  original_verb : Str
  original_adjective : Str
  original_noun : Str
  enhanced_verb : Str
  enhanced_adjective : Str
  enhanced_noun : Str
  transformation_quality : Str

/-- `themeAnalysis` of the frontend analysis. -/
structure ThemeAnalysisFx where
  emotional_tone : EmotionalTone
  themes : List Str
  literary_devices : List MetaphorEntry
  word_analysis : WordAnalysisFx

/-- `poetryMetrics` of the frontend analysis. -/
structure PoetryMetrics where
  readabilityScore : ℚ
  emotionalImpact : ℚ
  creativityIndex : ℚ
  coherenceScore : ℚ

/-- The transformed analysis matching the frontend PoemAnalysis shape. -/
structure FrontendAnalysis where
  themeAnalysis : ThemeAnalysisFx
  visualRecommendations : VisualRecs
  poetryMetrics : PoetryMetrics

/-- The simple frontend `Theme.colors`. -/
structure ThemeColors where
  primary : Str
  secondary : Str
  accent : Str
  background : Str
  gradient : List Str

/-- The simple frontend `Theme.animations`. -/
structure ThemeAnimations where
  style : Str
  duration : ℚ
  stagger : ℚ

/-- The simple frontend `Theme.typography`. -/
structure ThemeTypography where
  mood : Str
  scale : ℚ

/-- The simple frontend `Theme`. -/
structure Theme where
  colors : ThemeColors
  animations : ThemeAnimations
  typography : ThemeTypography

/-- The default gray palette (line 700). -/
def defaultColors5 : List Str :=
  [str "#6b7280", str "#9ca3af", str "#d1d5db", str "#f3f4f6", str "#ffffff"]

/-- The emotion-to-intensity map (lines 705-715). -/
def intensity_map : List (Str × Str) :=
  [(str "intense", str "high"), (str "passionate", str "high"), (str "angry", str "high"),
   (str "excited", str "high"), (str "calm", str "low"), (str "peaceful", str "low"),
   (str "neutral", str "medium"), (str "contemplative", str "medium"),
   (str "reflective", str "medium")]

/-- `transform_analysis_for_frontend` (lambda_function.py lines 679-811). -/
def transform_analysis_for_frontend (analysis : BackendAnalysis)
    (verb adjective noun : Str) : FrontendAnalysis :=
  let traditional := analysis.traditional
  let dominant_colors := (traditional.bind (·.dominant_colors)).getD defaultColors5
  let gradient_colors :=
    ((analysis.temporal.bind (·.background_suggestions)).bind (·.gradient_colors)).getD
      (dominant_colors.take 3)
  let emotion := (traditional.bind (·.emotion)).getD (str "neutral")
  let intensity := lookupD intensity_map emotion (str "medium")
  let rhythm_type := (analysis.rhythm.bind (·.rhythm_type)).getD (str "free verse")
  let mood := (traditional.bind (·.mood)).getD (str "reflective")
  let animation_style :=
    if rhythm_type = str "iambic" ∨ rhythm_type = str "trochaic" then str "energetic"
    else if mood = str "dramatic" ∨ mood = str "intense" then str "dramatic"
    else if mood = str "mysterious" ∨ mood = str "ethereal" then str "mystical"
    else str "calm"
  let animation_timing := analysis.rhythm.bind (·.animation_timing)
  let duration := (animation_timing.bind (·.base_duration)).getD 2000
  let easing := (animation_timing.bind (·.easing_function)).getD (str "ease-out")
  let stagger_pattern := (animation_timing.bind (·.stagger_pattern)).getD [0, 150, 300, 450]
  let stagger := if 1 < stagger_pattern.length then stagger_pattern.getD 1 150 else 150
  let typo := analysis.rhyme.bind (·.typography)
  let font_style := (typo.bind (·.font_style)).getD (str "sans-serif")
  let line_spacing := (typo.bind (·.line_spacing)).getD 1.6
  { themeAnalysis :=
    { emotional_tone :=
      { primary := emotion
        secondary := if mood ≠ emotion then some mood else none
        intensity := intensity
        scores := if mood = emotion then [(emotion, 0)] else [(emotion, 0.8), (mood, 0.6)] }
      themes := [(traditional.bind (·.theme)).getD (str "contemplative")]
      literary_devices := ((analysis.metaphors.bind (·.identified)).getD [])
      word_analysis :=
      { original_verb := verb, original_adjective := adjective, original_noun := noun
        enhanced_verb := verb, enhanced_adjective := adjective, enhanced_noun := noun
        transformation_quality := str "moderate" } }
    visualRecommendations :=
    { colors :=
      { primary := dominant_colors.getD 0 (str "#6b7280")
        secondary := dominant_colors.getD 1 (str "#9ca3af")
        accent := dominant_colors.getD 2 (str "#d1d5db")
        background := dominant_colors.getD 3 (str "#f3f4f6")
        gradient := gradient_colors }
      typography :=
      { fontFamily := font_style
        fontWeight := if mood = str "reflective" then str "400" else str "500"
        letterSpacing := str "normal", lineHeight := line_spacing, fontSize := str "medium" }
      animations := { duration := duration, easing := easing, stagger := stagger
                      style := animation_style }
      layout := { layout_style := str "centered"
                  alignment := (typo.bind (·.text_alignment)).getD (str "left")
                  spacing := str "normal" }
      effects :=
      { blur := mood = str "ethereal" || mood = str "dreamy" || mood = str "mysterious"
        glow := emotion = str "hopeful" || emotion = str "magical" ||
                emotion = str "wonder" || emotion = str "love"
        shadow := intensity = str "high" || mood = str "dramatic" || mood = str "intense"
        gradient := decide (2 < gradient_colors.length) } }
    poetryMetrics :=
    { readabilityScore := 0.85
      emotionalImpact := if intensity = str "high" then 0.7 else 0.5
      creativityIndex := 0.75, coherenceScore := 0.9 } }

/-- `extract_simple_theme_from_analysis` (lambda_function.py lines
813-873). -/
def extract_simple_theme_from_analysis (analysis : FrontendAnalysis) : Theme :=
  let colors := analysis.visualRecommendations.colors
  let animations := analysis.visualRecommendations.animations
  let typography := analysis.visualRecommendations.typography
  let gradient0 := colors.gradient
  let gradient :=
    if gradient0 = [] ∨ gradient0.length < 2 then
      [colors.primary, colors.secondary, colors.accent]
    else gradient0
  let font_family := typography.fontFamily
  let typography_mood :=
    if font_family = str "serif" ∨ font_family = str "Georgia" ∨ font_family = str "Times"
    then str "classic"
    else if containsSub (str "playful") (pyLowerStr font_family) ||
            containsSub (str "comic") (pyLowerStr font_family) then str "playful"
    else if containsSub (str "elegant") (pyLowerStr font_family) ||
            containsSub (str "script") (pyLowerStr font_family) then str "elegant"
    else str "modern"
  let animation_style := animations.style
  let astyle :=
    if animation_style ∈ [str "calm", str "energetic", str "dramatic", str "mystical"]
    then animation_style else str "calm"
  { colors := { primary := colors.primary, secondary := colors.secondary
                accent := colors.accent, background := colors.background
                gradient := gradient }
    animations := { style := astyle, duration := animations.duration
                    stagger := animations.stagger }
    typography := { mood := typography_mood, scale := 1.0 } }

/-- The adjective-to-emotion map of the fallback generator (lines
992-997). -/
def emotion_map : List (Str × Str) :=
  [(str "dark", str "mysterious"), (str "bright", str "joyful"), (str "sad", str "melancholy"),
   (str "happy", str "euphoric"), (str "calm", str "peaceful"), (str "wild", str "energetic"),
   (str "gentle", str "serene"), (str "fierce", str "intense"), (str "ancient", str "nostalgic"),
   (str "new", str "hopeful"), (str "old", str "contemplative"), (str "young", str "vibrant"),
   (str "deep", str "profound"), (str "light", str "ethereal"), (str "heavy", str "somber"),
   (str "soft", str "tender")]

/-- The adjective-to-palette map of the fallback generator (lines
999-1004). -/
def color_map : List (Str × List Str) :=
  [(str "dark", [str "#2d3748", str "#1a202c", str "#4a5568"]),
   (str "bright", [str "#fbbf24", str "#f59e0b", str "#d97706"]),
   (str "blue", [str "#3182ce", str "#2b77e0", str "#1e40af"]),
   (str "red", [str "#e53e3e", str "#c53030", str "#9b2c2c"]),
   (str "green", [str "#38a169", str "#2f855a", str "#276749"]),
   (str "purple", [str "#805ad5", str "#6b46c1", str "#553c9a"]),
   (str "gold", [str "#d69e2e", str "#b7791f", str "#975a16"]),
   (str "silver", [str "#a0aec0", str "#718096", str "#4a5568"])]

/-- The palette for an adjective (line 1008). -/
def fallback_colors (adjective : Str) : List Str :=
  ((color_map.find? fun p => decide (p.1 = pyLowerStr adjective)).map (·.2)).getD
    [str "#6b7280", str "#9ca3af", str "#d1d5db"]

/-- The emotion for an adjective (line 1007). -/
def fallback_primary_emotion (adjective : Str) : Str :=
  lookupD emotion_map (pyLowerStr adjective) (str "contemplative")

/-- The verb-to-style lookup of the fallback generator (lambda_function.py
lines 1010-1017).  Note: the source computes this value but only logs it
(line 1100); it never reaches the returned data. -/
def animation_style_from_verb (verb : Str) : Str :=
  if pyLowerStr verb ∈ [str "dance", str "leap", str "rush", str "race", str "fly"]
  then str "energetic"
  else if pyLowerStr verb ∈ [str "whisper", str "glide", str "flow", str "drift"]
  then str "mystical"
  else if pyLowerStr verb ∈ [str "thunder", str "crash", str "roar", str "strike"]
  then str "dramatic"
  else str "calm"

/-- The template category by noun (lines 984-989): 0 nature, 1 urban,
2 other. -/
def fallback_template_category (noun : Str) : ℕ :=
  if pyLowerStr noun ∈ [str "nature", str "forest", str "ocean", str "mountain", str "sky",
      str "moon", str "star", str "sun", str "flower", str "tree"] then 0
  else if pyLowerStr noun ∈ [str "city", str "street", str "building", str "light",
      str "sound", str "music", str "car", str "phone", str "computer"] then 1
  else 2

/-- The `analysis_data` dict built by the fallback generator (lines
1020-1089).  The interpolated poem text itself (and the word count derived
from it) is presentation data not modelled here. -/
def fallback_analysis_data (verb adjective noun : Str) : BackendAnalysis :=
  let primary_emotion := fallback_primary_emotion adjective
  let colors := fallback_colors adjective
  { rhyme := some
      { scheme := some (str "ABAB"), density := some 0.8
        typography := some { font_style := some (str "serif"), line_spacing := some 1.8
                             text_alignment := some (str "left") } }
    metaphors := some
      { identified := some
          [{ line := 1, text := adjective ++ str " light", mtype := str "visual" },
           { line := 3, text := noun ++ str " speaks", mtype := str "conceptual" }] }
    rhythm := some
      { rhythm_type := some (str "iambic tetrameter")
        animation_timing := some
          { base_duration := some 2500, stagger_pattern := some [0, 200, 400, 600]
            easing_function := some (str "ease-in-out") } }
    temporal := some
      { background_suggestions := some { gradient_colors := some (colors.take 2) } }
    traditional := some
      { theme := some (primary_emotion ++ str " reflection"), mood := some primary_emotion
        dominant_colors := some colors, emotion := some primary_emotion
        imagery_type := some (str "lyrical"), line_count := some 12 } }

/-- A poem record as far as the claims need it: the transformed analysis
and the simple theme (the poem text and the time/uuid metadata are not
modelled). -/
structure PoemData where
  analysis : FrontendAnalysis
  theme : Theme

/-- `generate_enhanced_fallback_poem` (lambda_function.py lines 917-1101),
restricted to the analysis and theme it returns. -/
def generate_enhanced_fallback_poem (verb adjective noun : Str) : PoemData :=
  let transformed := transform_analysis_for_frontend
    (fallback_analysis_data verb adjective noun) verb adjective noun
  { analysis := transformed, theme := extract_simple_theme_from_analysis transformed }

/-- What the fallback theme's animation style actually depends on: the
adjective, through the emotion map. -/
def fallback_theme_style_from_adjective (adjective : Str) : Str :=
  let m := fallback_primary_emotion adjective
  if m = str "dramatic" ∨ m = str "intense" then str "dramatic"
  else if m = str "mysterious" ∨ m = str "ethereal" then str "mystical"
  else str "calm"

/-- The fallback record for the claim C7 inputs `(dance, golden, leaves)`. -/
def c7Poem : PoemData := generate_enhanced_fallback_poem (str "dance") (str "golden") (str "leaves")

/-! ## Request bodies, responses and the two Lambda handlers
(lambda_function.py lines 22-139 and 1158-1199; theme_analyzer.py lines
31-125 and 599-641) -/

/-- A JSON value standing in a request body: a string, or anything else
(`INVALID_TYPE` territory). -/
inductive ReqValue where
  | vstr (s : Str)
  | vother
deriving DecidableEq

/-- A parsed JSON request body (a dict with distinct keys). -/
abbrev BodyDict := List (Str × ReqValue)

/-- Python `body[k]` / `k in body`. -/
def getVal (b : BodyDict) (k : Str) : Option ReqValue :=
  (b.find? fun p => decide (p.1 = k)).map (·.2)

/-- `body[k]` when validation has established it is a string. -/
def getStrVal (b : BodyDict) (k : Str) : Str :=
  match getVal b k with
  | some (.vstr s) => s
  | _ => []

/-- An API Gateway response. -/
structure Response where
  statusCode : ℕ
  headers : List (Str × Str)
  body : Str
deriving DecidableEq

/-- The fixed header set of `create_response` (lambda_function.py lines
1171-1176 = theme_analyzer.py lines 612-617). -/
def responseHeaders : List (Str × Str) :=
  [(str "Content-Type", str "application/json"),
   (str "Access-Control-Allow-Origin", str "*"),
   (str "Access-Control-Allow-Headers", str "Content-Type,X-API-Key,Authorization"),
   (str "Access-Control-Allow-Methods", str "GET,POST,OPTIONS")]

/-- Decimal digits of a natural number (fuel = the number itself). -/
def natReprGo : ℕ → ℕ → Str
  | 0, _ => []
  | _ + 1, n => if n < 10 then [Char.ofNat (48 + n)]
                else natReprGo n (n / 10) ++ [Char.ofNat (48 + n % 10)]

/-- Decimal text of a natural number. -/
def natRepr (n : ℕ) : Str := natReprGo (n + 1) n

/-- Decimal text of an integer. -/
def intRepr (i : ℤ) : Str := if i < 0 then '-' :: natRepr i.natAbs else natRepr i.natAbs

/-- Text of a rational: integers plainly, other values as num/den (a model
of Python float printing adequate for serialisation structure). -/
def ratRepr (q : ℚ) : Str :=
  if q.den = 1 then intRepr q.num else intRepr q.num ++ '/' :: natRepr q.den

/-- String-escaping of `json.dumps` for one character (the escapes used by
the modelled payloads). -/
def jsonEscapeOut (c : Char) : Str :=
  if c = '"' then ['\\', '"']
  else if c = '\\' then ['\\', '\\']
  else if c = '\n' then ['\\', 'n']
  else if c = '\r' then ['\\', 'r']
  else if c = '\t' then ['\\', 't']
  else [c]

mutual

/-- Models `json.dumps` with its default `', '` and `': '` separators. -/
def json_dumps : Json → Str
  | .null => str "null"
  | .bool true => str "true"
  | .bool false => str "false"
  | .num q => ratRepr q
  | .str s => '"' :: s.foldr (fun c acc => jsonEscapeOut c ++ acc) ['"']
  | .arr xs => '[' :: jsonDumpsElems xs ++ [']']
  | .obj kvs => lbrace :: jsonDumpsMembers kvs ++ [rbrace]

/-- Serialise array elements. -/
def jsonDumpsElems : List Json → Str
  | [] => []
  | [x] => json_dumps x
  | x :: y :: rest => json_dumps x ++ ',' :: ' ' :: jsonDumpsElems (y :: rest)

/-- Serialise object members. -/
def jsonDumpsMembers : List (Str × Json) → Str
  | [] => []
  | [(k, v)] =>
    '"' :: k.foldr (fun c acc => jsonEscapeOut c ++ acc) ('"' :: ':' :: ' ' :: json_dumps v)
  | (k, v) :: m :: rest =>
    '"' :: k.foldr (fun c acc => jsonEscapeOut c ++ acc) ('"' :: ':' :: ' ' :: json_dumps v)
      ++ ',' :: ' ' :: jsonDumpsMembers (m :: rest)

end

/-- `create_response` (lambda_function.py lines 1158-1178 =
theme_analyzer.py lines 599-619): fixed CORS/content headers and a
JSON-serialised body. -/
def create_response (status_code : ℕ) (body : Json) : Response :=
  { statusCode := status_code, headers := responseHeaders, body := json_dumps body }

/-- `create_error_response` (lambda_function.py lines 1180-1199 =
theme_analyzer.py lines 622-641); `now` models `datetime.utcnow()`. -/
def create_error_response (status_code : ℕ) (error_code : Str) (message : Str)
    (now : Str) : Response :=
  create_response status_code (.obj
    [(str "success", .bool false),
     (str "error", .obj [(str "code", .str error_code), (str "message", .str message)]),
     (str "timestamp", .str now)])

/-- The `{'success': True, ...}` payload of both handlers. -/
def successPayload (data : Json) (cached : Bool) (now : Str) : Json :=
  .obj [(str "success", .bool true), (str "data", data),
        (str "cached", .bool cached), (str "timestamp", .str now)]

/-- One round of the loop of `validate_input` (lambda_function.py lines
126-137) for one required field. -/
def validate_field (now : Str) (b : BodyDict) (f : Str) : Option Response :=
  match getVal b f with
  | none => some (create_error_response 400 (str "MISSING_FIELD")
      (str "Field \"" ++ f ++ str "\" is required") now)
  | some .vother => some (create_error_response 400 (str "INVALID_TYPE")
      (str "Field \"" ++ f ++ str "\" must be a string") now)
  | some (.vstr s) =>
    if pyStrip s = [] then
      some (create_error_response 400 (str "EMPTY_FIELD")
        (str "Field \"" ++ f ++ str "\" cannot be empty") now)
    else if 50 < (pyStrip s).length then
      some (create_error_response 400 (str "FIELD_TOO_LONG")
        (str "Field \"" ++ f ++ str "\" must be 50 characters or less") now)
    else none

/-- `validate_input` of the poem generator (lambda_function.py lines
114-139): fields checked in order verb, adjective, noun. -/
def validate_input (now : Str) (b : BodyDict) : Option Response :=
  match validate_field now b (str "verb") with
  | some r => some r
  | none =>
    match validate_field now b (str "adjective") with
    | some r => some r
    | none => validate_field now b (str "noun")

/-- `validate_input` of the theme analyzer (theme_analyzer.py lines
103-125): the `poem` field, with the 5000-character limit checked on the
RAW string (not the stripped one). -/
def validate_input_theme (now : Str) (b : BodyDict) : Option Response :=
  match getVal b (str "poem") with
  | none => some (create_error_response 400 (str "MISSING_POEM")
      (str "Field \"poem\" is required") now)
  | some .vother => some (create_error_response 400 (str "INVALID_TYPE")
      (str "Field \"poem\" must be a string") now)
  | some (.vstr s) =>
    if pyStrip s = [] then
      some (create_error_response 400 (str "EMPTY_POEM") (str "Poem cannot be empty") now)
    else if 5000 < s.length then
      some (create_error_response 400 (str "POEM_TOO_LONG")
        (str "Poem must be 5000 characters or less") now)
    else none

/-- An API Gateway event as the handlers read it. -/
structure Event where
  httpMethod : Option Str
  path : Option Str
  body : Option Str

/-- `BEDROCK_MODEL_ID` default of lambda_function.py line 19. -/
def BEDROCK_MODEL_ID : Str := str "anthropic.claude-3-5-haiku-20241022"

/-- Python `s.endswith(t)`. -/
def endsWithStr (s t : Str) : Bool := t.isSuffixOf s

/-! JSON conversions of the modelled records, for the payloads the
handlers serialise. -/

/-- A present field as a singleton member list, an absent one as none. -/
def optMember (k : Str) : Option Json → List (Str × Json)
  | some j => [(k, j)]
  | none => []

/-- Secondary-emotion entry as JSON. -/
def secEntryToJson (e : SecEntry) : Json :=
  .obj (optMember (str "emotion") (e.emotion.map .str) ++
        optMember (str "intensity") (e.intensity.map .num))

/-- Emotion sub-object as JSON. -/
def emotionToJson (e : EmotionObj) : Json :=
  .obj (optMember (str "primary") (e.primary.map .str) ++
        optMember (str "intensity") (e.intensity.map .num) ++
        optMember (str "secondary") (e.secondary.map fun l => .arr (l.map secEntryToJson)))

/-- Palette entry as JSON. -/
def colorEntryToJson (c : ColorEntry) : Json :=
  .obj (optMember (str "hex") (c.hex.map .str) ++
        optMember (str "weight") (c.weight.map .num) ++
        optMember (str "role") (c.role.map .str))

/-- Colors sub-object as JSON. -/
def colorsToJson (c : ColorsObj) : Json :=
  .obj (optMember (str "palette") (c.palette.map fun l => .arr (l.map colorEntryToJson)) ++
        optMember (str "dominant_temperature") (c.dominant_temperature.map .str) ++
        optMember (str "saturation_level") (c.saturation_level.map .str))

/-- Timing sub-object as JSON. -/
def timingToJson (t : TimingObj) : Json :=
  .obj (optMember (str "duration") (t.duration.map .num) ++
        optMember (str "stagger_delay") (t.stagger_delay.map .num) ++
        optMember (str "easing") (t.easing.map .str))

/-- Particles sub-object as JSON. -/
def particlesToJson (p : ParticlesObj) : Json :=
  .obj (optMember (str "enabled") (p.enabled.map .bool) ++
        optMember (str "type") (p.particle_type.map .str) ++
        optMember (str "density") (p.density.map .num) ++
        optMember (str "speed") (p.speed.map .num))

/-- Animation sub-object as JSON. -/
def animationToJson (an : AnimationObj) : Json :=
  .obj (optMember (str "style") (an.style.map .str) ++
        optMember (str "timing") (an.timing.map timingToJson) ++
        optMember (str "movement_type") (an.movement_type.map .str) ++
        optMember (str "particles") (an.particles.map particlesToJson))

/-- Imagery sub-object as JSON. -/
def imageryToJson (im : ImageryObj) : Json :=
  .obj (optMember (str "keywords") (im.keywords.map fun l => .arr (l.map .str)) ++
        optMember (str "category") (im.category.map .str) ++
        optMember (str "visual_density") (im.visual_density.map .num))

/-- Typography sub-object as JSON. -/
def typographyToJson (t : TypographyObj) : Json :=
  .obj (optMember (str "mood") (t.mood.map .str) ++
        optMember (str "font_weight") (t.font_weight.map .num) ++
        optMember (str "font_scale") (t.font_scale.map .num) ++
        optMember (str "line_height") (t.line_height.map .num) ++
        optMember (str "letter_spacing") (t.letter_spacing.map .num) ++
        optMember (str "text_shadow") (t.text_shadow.map .num))

/-- Layout sub-object as JSON. -/
def layoutToJson (l : LayoutObj) : Json :=
  .obj (optMember (str "spacing_scale") (l.spacing_scale.map .num) ++
        optMember (str "border_radius") (l.border_radius.map .num) ++
        optMember (str "backdrop_blur") (l.backdrop_blur.map .num) ++
        optMember (str "gradient_angle") (l.gradient_angle.map .num) ++
        optMember (str "opacity_variations") (l.opacity_variations.map fun o => .arr (o.map .num)))

/-- Metadata sub-object as JSON. -/
def metadataToJson (m : MetadataObj) : Json :=
  .obj (optMember (str "analysis_confidence") (m.analysis_confidence.map .num) ++
        optMember (str "processing_notes") (m.processing_notes.map .str))

/-- The sanitised analysis dict as the JSON payload the theme handler
returns. -/
def analysisToJson (a : Analysis) : Json :=
  .obj (optMember (str "emotion") (a.emotion.map emotionToJson) ++
        optMember (str "colors") (a.colors.map colorsToJson) ++
        optMember (str "animation") (a.animation.map animationToJson) ++
        optMember (str "imagery") (a.imagery.map imageryToJson) ++
        optMember (str "typography") (a.typography.map typographyToJson) ++
        optMember (str "layout") (a.layout.map layoutToJson) ++
        optMember (str "metadata") (a.metadata.map metadataToJson) ++
        optMember (str "secondary") (a.secondary.map fun l => .arr (l.map secEntryToJson)))

/-- Metaphor entry as JSON. -/
def metaphorToJson (m : MetaphorEntry) : Json :=
  .obj [(str "line", .num m.line), (str "text", .str m.text), (str "type", .str m.mtype)]

/-- The transformed frontend analysis as JSON. -/
def frontendAnalysisToJson (a : FrontendAnalysis) : Json :=
  .obj [(str "themeAnalysis", .obj
          [(str "emotional_tone", .obj
            ([(str "primary", .str a.themeAnalysis.emotional_tone.primary)] ++
             [(str "secondary", (a.themeAnalysis.emotional_tone.secondary.map .str).getD .null)] ++
             [(str "intensity", .str a.themeAnalysis.emotional_tone.intensity),
              (str "scores", .obj (a.themeAnalysis.emotional_tone.scores.map
                fun p => (p.1, .num p.2)))])),
           (str "themes", .arr (a.themeAnalysis.themes.map .str)),
           (str "literary_devices", .arr (a.themeAnalysis.literary_devices.map metaphorToJson)),
           (str "word_analysis", .obj
            [(str "original", .obj
              [(str "verb", .str a.themeAnalysis.word_analysis.original_verb),
               (str "adjective", .str a.themeAnalysis.word_analysis.original_adjective),
               (str "noun", .str a.themeAnalysis.word_analysis.original_noun)]),
             (str "enhanced", .obj
              [(str "verb", .str a.themeAnalysis.word_analysis.enhanced_verb),
               (str "adjective", .str a.themeAnalysis.word_analysis.enhanced_adjective),
               (str "noun", .str a.themeAnalysis.word_analysis.enhanced_noun)]),
             (str "transformation_quality",
              .str a.themeAnalysis.word_analysis.transformation_quality)])]),
        (str "visualRecommendations", .obj
          [(str "colors", .obj
            [(str "primary", .str a.visualRecommendations.colors.primary),
             (str "secondary", .str a.visualRecommendations.colors.secondary),
             (str "accent", .str a.visualRecommendations.colors.accent),
             (str "background", .str a.visualRecommendations.colors.background),
             (str "gradient", .arr (a.visualRecommendations.colors.gradient.map .str))]),
           (str "typography", .obj
            [(str "fontFamily", .str a.visualRecommendations.typography.fontFamily),
             (str "fontWeight", .str a.visualRecommendations.typography.fontWeight),
             (str "letterSpacing", .str a.visualRecommendations.typography.letterSpacing),
             (str "lineHeight", .num a.visualRecommendations.typography.lineHeight),
             (str "fontSize", .str a.visualRecommendations.typography.fontSize)]),
           (str "animations", .obj
            [(str "duration", .num a.visualRecommendations.animations.duration),
             (str "easing", .str a.visualRecommendations.animations.easing),
             (str "stagger", .num a.visualRecommendations.animations.stagger),
             (str "style", .str a.visualRecommendations.animations.style)]),
           (str "layout", .obj
            [(str "style", .str a.visualRecommendations.layout.layout_style),
             (str "alignment", .str a.visualRecommendations.layout.alignment),
             (str "spacing", .str a.visualRecommendations.layout.spacing)]),
           (str "effects", .obj
            [(str "blur", .bool a.visualRecommendations.effects.blur),
             (str "glow", .bool a.visualRecommendations.effects.glow),
             (str "shadow", .bool a.visualRecommendations.effects.shadow),
             (str "gradient", .bool a.visualRecommendations.effects.gradient)])]),
        (str "poetryMetrics", .obj
          [(str "readabilityScore", .num a.poetryMetrics.readabilityScore),
           (str "emotionalImpact", .num a.poetryMetrics.emotionalImpact),
           (str "creativityIndex", .num a.poetryMetrics.creativityIndex),
           (str "coherenceScore", .num a.poetryMetrics.coherenceScore)])]

/-- The simple theme as JSON. -/
def themeToJson (t : Theme) : Json :=
  .obj [(str "colors", .obj
          [(str "primary", .str t.colors.primary), (str "secondary", .str t.colors.secondary),
           (str "accent", .str t.colors.accent), (str "background", .str t.colors.background),
           (str "gradient", .arr (t.colors.gradient.map .str))]),
        (str "animations", .obj
          [(str "style", .str t.animations.style), (str "duration", .num t.animations.duration),
           (str "stagger", .num t.animations.stagger)]),
        (str "typography", .obj
          [(str "mood", .str t.typography.mood), (str "scale", .num t.typography.scale)])]

/-- The poem record as the JSON payload the poem handler returns (poem
text and time/uuid metadata are outside the model). -/
def poemDataToJson (d : PoemData) : Json :=
  .obj [(str "analysis", frontendAnalysisToJson d.analysis),
        (str "theme", themeToJson d.theme)]

/-- The external collaborators of the poem handler for one request:
`parsed` is the `json.loads` result on the event body (`none` =
JSONDecodeError), `cacheGet` the guarded `get_cached_poem` call (`.error`
= the cache check raised and is skipped), `bedrock` the outcome of
`generate_poem_with_bedrock`, `now` the `datetime.utcnow()` text. -/
structure PoemOracle where
  parsed : Option BodyDict
  cacheGet : Except Unit (Option Json)
  bedrock : Except Unit Json
  now : Str

namespace PoemLambda

/-- `lambda_handler` of the poem generator (lambda_function.py lines
22-112).  Cache-write failures are swallowed (lines 96-100) and do not
change the response, so the cache put is not a parameter. -/
def lambda_handler (ev : Event) (o : PoemOracle) : Response :=
  if ev.httpMethod = some (str "OPTIONS") then
    create_response 200 (.obj [(str "message", .str (str "CORS preflight"))])
  else if ev.httpMethod = some (str "GET") ∧ endsWithStr (ev.path.getD []) (str "/health") then
    create_response 200 (.obj
      [(str "status", .str (str "healthy")),
       (str "service", .str (str "WordWeave Poem Generator")),
       (str "model", .str BEDROCK_MODEL_ID),
       (str "timestamp", .str o.now)])
  else
    match ev.body with
    | none => create_error_response 400 (str "MISSING_BODY") (str "Request body is required") o.now
    | some bs =>
      if bs = [] then
        create_error_response 400 (str "MISSING_BODY") (str "Request body is required") o.now
      else
        match o.parsed with
        | none => create_error_response 400 (str "INVALID_JSON")
            (str "Request body must be valid JSON") o.now
        | some body =>
          match validate_input o.now body with
          | some r => r
          | none =>
            match o.cacheGet with
            | .ok (some cached) => create_response 200 (successPayload cached true o.now)
            | _ =>
              create_response 200 (successPayload
                (match o.bedrock with
                 | .ok j => j
                 | .error _ => poemDataToJson (generate_enhanced_fallback_poem
                     (pyLowerStr (pyStrip (getStrVal body (str "verb"))))
                     (pyLowerStr (pyStrip (getStrVal body (str "adjective"))))
                     (pyLowerStr (pyStrip (getStrVal body (str "noun"))))))
                false o.now)

end PoemLambda

/-- The external collaborators of the theme handler for one request:
`parsed` as above, `cacheGet` the `get_cached_analysis` result (that
function swallows store errors and returns None), `outcomes`/`jitter`
drive the Bedrock retry pipeline. -/
structure ThemeOracle where
  parsed : Option BodyDict
  cacheGet : Option Json
  outcomes : ℕ → BedrockOutcome
  jitter : ℕ → ℚ
  now : Str

namespace ThemeLambda

/-- `lambda_handler` of the theme analyzer (theme_analyzer.py lines
31-100).  A failure of the retried analysis reaches the handler's
outermost `except Exception` (lines 98-100) and becomes a 500
INTERNAL_ERROR; cache-write failures are swallowed (lines 84-88). -/
def lambda_handler (ev : Event) (o : ThemeOracle) : Response :=
  if ev.httpMethod = some (str "OPTIONS") then
    create_response 200 (.obj [(str "message", .str (str "CORS preflight"))])
  else
    match ev.body with
    | none => create_error_response 400 (str "MISSING_BODY") (str "Request body is required") o.now
    | some bs =>
      if bs = [] then
        create_error_response 400 (str "MISSING_BODY") (str "Request body is required") o.now
      else
        match o.parsed with
        | none => create_error_response 400 (str "INVALID_JSON")
            (str "Request body must be valid JSON") o.now
        | some body =>
          match validate_input_theme o.now body with
          | some r => r
          | none =>
            match o.cacheGet with
            | some cached => create_response 200 (successPayload cached true o.now)
            | none =>
              match (themeRetry o.outcomes o.jitter).1 with
              | .ok analysis =>
                create_response 200 (successPayload (analysisToJson analysis) false o.now)
              | .error _ =>
                create_error_response 500 (str "INTERNAL_ERROR")
                  (str "Failed to analyze theme") o.now

end ThemeLambda

/-- The validation outcome for one generation field, as a code: the first
failed check in source order (missing, type, empty, too long), or none. -/
def fieldCode (b : BodyDict) (f : Str) : Option Str :=
  match getVal b f with
  | none => some (str "MISSING_FIELD")
  | some .vother => some (str "INVALID_TYPE")
  | some (.vstr s) =>
    if pyStrip s = [] then some (str "EMPTY_FIELD")
    else if 50 < (pyStrip s).length then some (str "FIELD_TOO_LONG")
    else none

/-- The error code of the first violated check over the fields in source
order (verb, adjective, noun). -/
def gen_first_violation_code (b : BodyDict) : Option Str :=
  match fieldCode b (str "verb") with
  | some c => some c
  | none =>
    match fieldCode b (str "adjective") with
    | some c => some c
    | none => fieldCode b (str "noun")

/-- Event for the C5 witness: a plain POST with a body. -/
def c5Event : Event :=
  { httpMethod := some (str "POST"), path := some (str "/generate"), body := some (str "x") }

/-- Parsed request body for the C5 poem-side witness. -/
def c5Body : BodyDict :=
  [(str "verb", .vstr (str "dance")), (str "adjective", .vstr (str "golden")),
   (str "noun", .vstr (str "leaves"))]

/-- Parsed request body for the C5 theme-side witness. -/
def c5ThemeBody : BodyDict := [(str "poem", .vstr (str "hi"))]

/-- Poem-handler collaborators for the C5 witness: cache check raises,
Bedrock generation fails. -/
def c5PoemOracle : PoemOracle :=
  { parsed := some c5Body, cacheGet := .error (), bedrock := .error (), now := str "T" }

/-- Theme-handler collaborators for the C5 witness: cache miss, Bedrock
failing on every attempt. -/
def c5ThemeOracle : ThemeOracle :=
  { parsed := some c5ThemeBody, cacheGet := none,
    outcomes := fun _ => .otherErr (str "boom"), jitter := fun _ => 0, now := str "T" }

/-! ## Basic facts about clamping and the Python modulus -/

theorem clampQ_nonloss (lo hi x : ℚ) (h : lo ≤ hi) :
    lo ≤ clampQ lo hi x ∧ clampQ lo hi x ≤ hi := by
  constructor
  · exact le_max_left _ _
  · exact max_le h (min_le_left _ _)

theorem clampQ_eq_self (lo hi x : ℚ) (h1 : lo ≤ x) (h2 : x ≤ hi) :
    clampQ lo hi x = x := by
  unfold clampQ
  rw [min_eq_right h2, max_eq_right h1]

theorem pymod_bounds (x m : ℚ) (hm : 0 < m) : 0 ≤ pymod x m ∧ pymod x m < m := by
  unfold pymod
  have h1 : (⌊x / m⌋ : ℚ) ≤ x / m := Int.floor_le _
  have h2 : x / m < ⌊x / m⌋ + 1 := Int.lt_floor_add_one _
  have h3 : (⌊x / m⌋ : ℚ) * m ≤ x := (le_div_iff hm).mp h1
  have h4 : x < ((⌊x / m⌋ : ℚ) + 1) * m := (div_lt_iff hm).mp h2
  constructor <;> nlinarith

theorem pymod_eq_self (x m : ℚ) (hm : 0 < m) (h1 : 0 ≤ x) (h2 : x < m) :
    pymod x m = x := by
  unfold pymod
  have : ⌊x / m⌋ = 0 := by
    rw [Int.floor_eq_zero_iff]
    constructor
    · exact div_nonneg h1 hm.le
    · exact (div_lt_one hm).mpr h2
  rw [this]
  push_cast
  ring

theorem list_map_id_of {α : Type} (f : α → α) :
    ∀ l : List α, (∀ x ∈ l, f x = x) → l.map f = l := by
  intro l
  induction l with
  | nil => intro _; rfl
  | cons a t ih =>
    intro h
    simp only [List.map_cons]
    rw [h a (by simp), ih (fun x hx => h x (by simp [hx]))]

/-! ## How each sanitizer step acts on each field -/

theorem sanitizeAnimStep_proj (x : Analysis) :
    (sanitizeAnimStep x).emotion = x.emotion ∧
    (sanitizeAnimStep x).typography = x.typography ∧
    (sanitizeAnimStep x).layout = x.layout ∧
    (sanitizeAnimStep x).colors = x.colors ∧
    (sanitizeAnimStep x).secondary = x.secondary := by
  unfold sanitizeAnimStep
  cases hx : x.animation with
  | none => simp
  | some an => cases ht : an.timing <;> simp [ht]

theorem sanitizeTypoStep_proj (x : Analysis) :
    (sanitizeTypoStep x).emotion = x.emotion ∧
    (sanitizeTypoStep x).animation = x.animation ∧
    (sanitizeTypoStep x).layout = x.layout ∧
    (sanitizeTypoStep x).colors = x.colors ∧
    (sanitizeTypoStep x).secondary = x.secondary := by
  unfold sanitizeTypoStep
  cases x.typography <;> simp

theorem sanitizeLayoutStep_proj (x : Analysis) :
    (sanitizeLayoutStep x).emotion = x.emotion ∧
    (sanitizeLayoutStep x).animation = x.animation ∧
    (sanitizeLayoutStep x).typography = x.typography ∧
    (sanitizeLayoutStep x).colors = x.colors ∧
    (sanitizeLayoutStep x).secondary = x.secondary := by
  unfold sanitizeLayoutStep
  cases x.layout <;> simp

theorem sanitizeColorStep_proj (x : Analysis) :
    (sanitizeColorStep x).emotion = x.emotion ∧
    (sanitizeColorStep x).animation = x.animation ∧
    (sanitizeColorStep x).typography = x.typography ∧
    (sanitizeColorStep x).layout = x.layout ∧
    (sanitizeColorStep x).secondary = x.secondary := by
  unfold sanitizeColorStep
  cases hx : x.colors with
  | none => simp
  | some c => cases hp : c.palette <;> simp [hp]

theorem sanitizeEmotionStep_ok_emotion (a d : Analysis)
    (h : sanitizeEmotionStep a = .ok d) :
    d.emotion = a.emotion.map clampEmotionObj := by
  unfold sanitizeEmotionStep at h
  cases ha : a.emotion with
  | none =>
    rw [ha] at h
    have hd : a = d := Except.ok.inj h
    subst hd
    simp [ha]
  | some e =>
    rw [ha] at h
    cases hs : e.secondary with
    | none =>
      simp only [hs] at h
      cases h
      rfl
    | some l =>
      simp only [hs] at h
      cases hts : a.secondary with
      | none => simp [hts] at h
      | some tl =>
        simp only [hts] at h
        cases h
        rfl

theorem sanitizeTypoStep_typography (x : Analysis) :
    (sanitizeTypoStep x).typography = x.typography.map clampTypoObj := by
  unfold sanitizeTypoStep
  cases h : x.typography <;> simp [h]

theorem sanitizeLayoutStep_layout (x : Analysis) :
    (sanitizeLayoutStep x).layout = x.layout.map clampLayoutObj := by
  unfold sanitizeLayoutStep
  cases h : x.layout <;> simp [h]

theorem sanitizeAnimStep_animation (x : Analysis) :
    (sanitizeAnimStep x).animation = x.animation.map (fun an =>
      match an.timing with
      | none => an
      | some t => { an with timing := some (clampTimingObj t) }) := by
  unfold sanitizeAnimStep
  cases hx : x.animation with
  | none => simp [hx]
  | some an => cases ht : an.timing <;> simp [hx, ht]

theorem sanitizeColorStep_colors (x : Analysis) :
    (sanitizeColorStep x).colors = x.colors.map (fun c =>
      match c.palette with
      | none => c
      | some pal => { c with palette := some (pal.map clampColorEntry) }) := by
  unfold sanitizeColorStep
  cases hx : x.colors with
  | none => simp [hx]
  | some c => cases hp : c.palette <;> simp [hx, hp]

theorem okB_elim {lo hi : ℚ} {o : Option ℚ} (h : okB lo hi o = true) :
    ∃ x, o = some x ∧ lo ≤ x ∧ x ≤ hi := by
  cases o with
  | none => simp [okB] at h
  | some x =>
    simp only [okB, Bool.and_eq_true, decide_eq_true_eq] at h
    exact ⟨x, rfl, h.1, h.2⟩

/-- C1.  The claim says `validate_and_sanitize_analysis` is total, and the
spec and the repository's own test suite
(`test_validate_and_sanitize_analysis_emotion_intensity`) agree; but the
code reads `data['secondary']` where `data['emotion']['secondary']` was
meant (theme_analyzer.py line 488), so any input whose emotion sub-object
contains a `secondary` list - while the top-level dict has no `secondary`
key - raises `KeyError('secondary')`.  This theorem evaluates the code at
such an input. -/
theorem C1_sanitizer_not_total :
    validate_and_sanitize_analysis crashIn = .error (.keyError (str "secondary")) := by
  rfl

/-- C2.  On every input on which the sanitizer returns, all enumerated
numeric fields present in the output lie in their documented intervals;
and concretely a gradient angle of 450 becomes 90, the opacity list
`[0.05, 1.5, -0.1]` becomes `[0.1, 1.0, 0.1]`, and a negative gradient
angle (-90) yields the non-negative 270. -/
theorem C2_sanitizer_ranges :
    (∀ a b, validate_and_sanitize_analysis a = .ok b →
      (∀ e, b.emotion = some e → inRangeQ 0 1 e.intensity) ∧
      (∀ an t, b.animation = some an → an.timing = some t →
        inRangeQ 500 5000 t.duration ∧ inRangeQ 50 500 t.stagger_delay) ∧
      (∀ t, b.typography = some t →
        inRangeQ 300 900 t.font_weight ∧ inRangeQ 0.8 1.5 t.font_scale ∧
        inRangeQ 1.2 2.0 t.line_height ∧ inRangeQ (-0.05) 0.2 t.letter_spacing ∧
        inRangeQ 0 4 t.text_shadow) ∧
      (∀ l, b.layout = some l →
        inRangeQ 0.8 1.4 l.spacing_scale ∧ inRangeQ 0 20 l.border_radius ∧
        inRangeQ 0 20 l.backdrop_blur ∧
        (∀ g, l.gradient_angle = some g → 0 ≤ g ∧ g < 360) ∧
        (∀ ops, l.opacity_variations = some ops → ∀ o ∈ ops, 0.1 ≤ o ∧ o ≤ 1.0)) ∧
      (∀ c pal, b.colors = some c → c.palette = some pal →
        ∀ col ∈ pal, inRangeQ 0.1 1.0 col.weight)) ∧
    validate_and_sanitize_analysis exAnalysisIn = .ok exAnalysisOut ∧
    validate_and_sanitize_analysis exNegIn = .ok exNegOut := by
  have hex1 : validate_and_sanitize_analysis exAnalysisIn = .ok exAnalysisOut := by
    simp only [validate_and_sanitize_analysis, sanitizeEmotionStep, sanitizeAnimStep,
      sanitizeTypoStep, sanitizeLayoutStep, sanitizeColorStep, clampLayoutObj, clampQ,
      pymod, exAnalysisIn, exLayoutIn, exAnalysisOut]
    norm_num [clampQ]
  have hex2 : validate_and_sanitize_analysis exNegIn = .ok exNegOut := by
    simp only [validate_and_sanitize_analysis, sanitizeEmotionStep, sanitizeAnimStep,
      sanitizeTypoStep, sanitizeLayoutStep, sanitizeColorStep, clampLayoutObj, clampQ,
      pymod, exNegIn, exNegOut]
    norm_num
  refine ⟨?_, hex1, hex2⟩
  intro a b h
  unfold validate_and_sanitize_analysis at h
  cases hh : sanitizeEmotionStep a with
  | error e => rw [hh] at h; cases h
  | ok d =>
    rw [hh] at h
    have hb : b = sanitizeColorStep (sanitizeLayoutStep (sanitizeTypoStep (sanitizeAnimStep d))) :=
      (Except.ok.inj h).symm
    refine ⟨?_, ?_, ?_, ?_, ?_⟩
    · -- emotion intensity
      intro e he
      have hbe : b.emotion = a.emotion.map clampEmotionObj := by
        rw [hb, (sanitizeColorStep_proj _).1, (sanitizeLayoutStep_proj _).1,
          (sanitizeTypoStep_proj _).1, (sanitizeAnimStep_proj _).1,
          sanitizeEmotionStep_ok_emotion a d hh]
      rw [he] at hbe
      cases ha : a.emotion with
      | none => rw [ha] at hbe; cases hbe
      | some e0 =>
        rw [ha] at hbe
        have he0 : e = clampEmotionObj e0 := Option.some.inj hbe
        cases hi : e0.intensity with
        | none =>
          have : e.intensity = none := by rw [he0]; simp [clampEmotionObj, hi]
          rw [this]; trivial
        | some x =>
          have : e.intensity = some (clampQ 0 1 x) := by
            rw [he0]; simp [clampEmotionObj, hi]
          rw [this]
          exact clampQ_nonloss 0 1 x (by norm_num)
    · -- animation timing
      intro an t hban ht
      have hba : b.animation = d.animation.map (fun an =>
          match an.timing with
          | none => an
          | some t => { an with timing := some (clampTimingObj t) }) := by
        rw [hb, (sanitizeColorStep_proj _).2.1, (sanitizeLayoutStep_proj _).2.1,
          (sanitizeTypoStep_proj _).2.1, sanitizeAnimStep_animation]
      rw [hban] at hba
      cases hd : d.animation with
      | none => rw [hd] at hba; cases hba
      | some an0 =>
        rw [hd] at hba
        cases ht0 : an0.timing with
        | none =>
          simp only [Option.map_some', ht0, Option.some.injEq] at hba
          rw [hba, ht0] at ht
          cases ht
        | some t0 =>
          simp only [Option.map_some', ht0, Option.some.injEq] at hba
          have htm : an.timing = some (clampTimingObj t0) := by rw [hba]
          rw [ht] at htm
          have htt : t = clampTimingObj t0 := Option.some.inj htm
          constructor
          · rw [htt]
            show inRangeQ 500 5000 (some (clampQ 500 5000 (t0.duration.getD 2000)))
            exact clampQ_nonloss _ _ _ (by norm_num)
          · rw [htt]
            show inRangeQ 50 500 (some (clampQ 50 500 (t0.stagger_delay.getD 150)))
            exact clampQ_nonloss _ _ _ (by norm_num)
    · -- typography
      intro t hbt
      have hba : b.typography = d.typography.map clampTypoObj := by
        rw [hb, (sanitizeColorStep_proj _).2.2.1, (sanitizeLayoutStep_proj _).2.2.1,
          sanitizeTypoStep_typography, (sanitizeAnimStep_proj _).2.1]
      rw [hbt] at hba
      cases hd : d.typography with
      | none => rw [hd] at hba; cases hba
      | some t0 =>
        rw [hd] at hba
        have htt : t = clampTypoObj t0 := Option.some.inj hba
        rw [htt]
        refine ⟨?_, ?_, ?_, ?_, ?_⟩ <;>
          exact clampQ_nonloss _ _ _ (by norm_num)
    · -- layout
      intro l hbl
      have hba : b.layout = d.layout.map clampLayoutObj := by
        rw [hb, (sanitizeColorStep_proj _).2.2.2.1, sanitizeLayoutStep_layout,
          (sanitizeTypoStep_proj _).2.2.1, (sanitizeAnimStep_proj _).2.2.1]
      rw [hbl] at hba
      cases hd : d.layout with
      | none => rw [hd] at hba; cases hba
      | some l0 =>
        rw [hd] at hba
        have hll : l = clampLayoutObj l0 := Option.some.inj hba
        refine ⟨?_, ?_, ?_, ?_, ?_⟩
        · rw [hll]; exact clampQ_nonloss _ _ _ (by norm_num)
        · rw [hll]; exact clampQ_nonloss _ _ _ (by norm_num)
        · rw [hll]; exact clampQ_nonloss _ _ _ (by norm_num)
        · intro g hg
          rw [hll] at hg
          have : g = pymod (l0.gradient_angle.getD 135) 360 := Option.some.inj hg.symm
          rw [this]
          exact pymod_bounds _ _ (by norm_num)
        · intro ops hops
          rw [hll] at hops
          simp only [clampLayoutObj] at hops
          cases ho : l0.opacity_variations with
          | none => rw [ho] at hops; cases hops
          | some ops0 =>
            rw [ho] at hops
            simp only [Option.map_some', Option.some.injEq] at hops
            intro o hoin
            rw [← hops] at hoin
            obtain ⟨o0, _, rfl⟩ := List.mem_map.mp hoin
            exact clampQ_nonloss _ _ _ (by norm_num)
    · -- colour weights
      intro c pal hbc hcp
      have hba : b.colors = d.colors.map (fun c =>
          match c.palette with
          | none => c
          | some pal => { c with palette := some (pal.map clampColorEntry) }) := by
        rw [hb, sanitizeColorStep_colors, (sanitizeLayoutStep_proj _).2.2.2.1,
          (sanitizeTypoStep_proj _).2.2.2.1, (sanitizeAnimStep_proj _).2.2.2.1]
      rw [hbc] at hba
      cases hd : d.colors with
      | none => rw [hd] at hba; cases hba
      | some c0 =>
        rw [hd] at hba
        cases hp0 : c0.palette with
        | none =>
          simp only [Option.map_some', hp0, Option.some.injEq] at hba
          rw [hba, hp0] at hcp
          cases hcp
        | some pal0 =>
          simp only [Option.map_some', hp0, Option.some.injEq] at hba
          have hcpal : c.palette = some (pal0.map clampColorEntry) := by rw [hba]
          rw [hcp] at hcpal
          have hpp : pal = pal0.map clampColorEntry := Option.some.inj hcpal
          intro col hcol
          rw [hpp] at hcol
          obtain ⟨col0, _, rfl⟩ := List.mem_map.mp hcol
          cases hw : col0.weight with
          | none =>
            have : (clampColorEntry col0).weight = none := by simp [clampColorEntry, hw]
            rw [this]; trivial
          | some w =>
            have : (clampColorEntry col0).weight = some (clampQ 0.1 1.0 w) := by
              simp [clampColorEntry, hw]
            rw [this]
            exact clampQ_nonloss _ _ _ (by norm_num)

/-- Witness for C2: the sanitizer accepts `exAnalysisIn` and the resulting
gradient angle (450 normalised to 90) lies in `[0, 360)`. -/
theorem C2_sanitizer_ranges_witness : (0:ℚ) ≤ 90 ∧ (90:ℚ) < 360 := by
  have h := C2_sanitizer_ranges.1 exAnalysisIn exAnalysisOut C2_sanitizer_ranges.2.1
  have hl := h.2.2.2.1
    { spacing_scale := some 1.0, border_radius := some 8, backdrop_blur := some 4
      gradient_angle := some 90, opacity_variations := some [0.1, 1.0, 0.1] } rfl
  exact hl.2.2.2.1 90 rfl

theorem sanitizeEmotionStep_id (a : Analysis) (e : EmotionObj)
    (he : a.emotion = some e) (hsec : e.secondary = none)
    (hint : okB 0 1 e.intensity = true) :
    sanitizeEmotionStep a = .ok a := by
  obtain ⟨x, hx, h1, h2⟩ := okB_elim hint
  have hce : clampEmotionObj e = e := by
    unfold clampEmotionObj
    rw [hx]
    simp only [Option.map_some']
    rw [clampQ_eq_self _ _ _ h1 h2, ← hx]
  simp only [sanitizeEmotionStep, he, hce, hsec]
  rw [show some e = a.emotion from he.symm]

theorem sanitizeAnimStep_id (a : Analysis) (an : AnimationObj)
    (han : a.animation = some an) (hv : validAnimB an = true) :
    sanitizeAnimStep a = a := by
  simp only [validAnimB, Bool.and_eq_true] at hv
  obtain ⟨-, htm'⟩ := hv
  cases ht : an.timing with
  | none => rw [ht] at htm'; cases htm'
  | some tm =>
    rw [ht] at htm'
    simp only [validTimingB, Bool.and_eq_true] at htm'
    obtain ⟨⟨-, hd⟩, hs⟩ := htm'
    obtain ⟨x1, hx1, a1, b1⟩ := okB_elim hd
    obtain ⟨x2, hx2, a2, b2⟩ := okB_elim hs
    have hct : clampTimingObj tm = tm := by
      unfold clampTimingObj
      rw [hx1, hx2]
      simp only [Option.getD_some]
      rw [clampQ_eq_self _ _ _ a1 b1, clampQ_eq_self _ _ _ a2 b2, ← hx1, ← hx2]
    simp only [sanitizeAnimStep, han, ht, hct]
    rw [show some ({ an with timing := some tm }) = a.animation by rw [← ht]; exact han.symm]

theorem sanitizeTypoStep_id (a : Analysis) (t : TypographyObj)
    (htp : a.typography = some t) (hv : validTypoB t = true) :
    sanitizeTypoStep a = a := by
  simp only [validTypoB, Bool.and_eq_true] at hv
  obtain ⟨⟨⟨⟨⟨-, h1⟩, h2⟩, h3⟩, h4⟩, h5⟩ := hv
  obtain ⟨x1, hx1, a1, b1⟩ := okB_elim h1
  obtain ⟨x2, hx2, a2, b2⟩ := okB_elim h2
  obtain ⟨x3, hx3, a3, b3⟩ := okB_elim h3
  obtain ⟨x4, hx4, a4, b4⟩ := okB_elim h4
  obtain ⟨x5, hx5, a5, b5⟩ := okB_elim h5
  have hct : clampTypoObj t = t := by
    unfold clampTypoObj
    rw [hx1, hx2, hx3, hx4, hx5]
    simp only [Option.getD_some]
    rw [clampQ_eq_self _ _ _ a1 b1, clampQ_eq_self _ _ _ a2 b2,
      clampQ_eq_self _ _ _ a3 b3, clampQ_eq_self _ _ _ a4 b4,
      clampQ_eq_self _ _ _ a5 b5, ← hx1, ← hx2, ← hx3, ← hx4, ← hx5]
  simp only [sanitizeTypoStep, htp, hct]
  rw [show some t = a.typography from htp.symm]

theorem sanitizeLayoutStep_id (a : Analysis) (l : LayoutObj)
    (hl : a.layout = some l) (hv : validLayoutB l = true) :
    sanitizeLayoutStep a = a := by
  simp only [validLayoutB, Bool.and_eq_true] at hv
  obtain ⟨⟨⟨⟨h1, h2⟩, h3⟩, hg⟩, hop⟩ := hv
  obtain ⟨x1, hx1, a1, b1⟩ := okB_elim h1
  obtain ⟨x2, hx2, a2, b2⟩ := okB_elim h2
  obtain ⟨x3, hx3, a3, b3⟩ := okB_elim h3
  cases hga : l.gradient_angle with
  | none => rw [hga] at hg; cases hg
  | some g =>
  rw [hga] at hg
  simp only [Bool.and_eq_true, decide_eq_true_eq] at hg
  cases hov : l.opacity_variations with
  | none => rw [hov] at hop; cases hop
  | some ops =>
  rw [hov] at hop
  have hops : ops.map (clampQ 0.1 1.0) = ops := by
    apply list_map_id_of
    intro o ho
    have := List.all_eq_true.mp hop o ho
    simp only [Bool.and_eq_true, decide_eq_true_eq] at this
    exact clampQ_eq_self _ _ _ this.1 this.2
  have hcl : clampLayoutObj l = l := by
    unfold clampLayoutObj
    rw [hx1, hx2, hx3, hga, hov]
    simp only [Option.getD_some, Option.map_some']
    rw [clampQ_eq_self _ _ _ a1 b1, clampQ_eq_self _ _ _ a2 b2,
      clampQ_eq_self _ _ _ a3 b3, pymod_eq_self g 360 (by norm_num) hg.1 hg.2, hops,
      ← hx1, ← hx2, ← hx3, ← hga, ← hov]
  simp only [sanitizeLayoutStep, hl, hcl]
  rw [show some l = a.layout from hl.symm]

theorem sanitizeColorStep_id (a : Analysis) (c : ColorsObj)
    (hc : a.colors = some c) (hv : validColorsB c = true) :
    sanitizeColorStep a = a := by
  simp only [validColorsB, Bool.and_eq_true] at hv
  obtain ⟨-, hpal⟩ := hv
  cases hp : c.palette with
  | none => rw [hp] at hpal; cases hpal
  | some pal =>
  rw [hp] at hpal
  have hmap : pal.map clampColorEntry = pal := by
    apply list_map_id_of
    intro col hcol
    have hcv := List.all_eq_true.mp hpal col hcol
    simp only [validColorEntryB, Bool.and_eq_true] at hcv
    obtain ⟨-, hw⟩ := hcv
    obtain ⟨w, hwx, aw, bw⟩ := okB_elim hw
    unfold clampColorEntry
    rw [hwx]
    simp only [Option.map_some']
    rw [clampQ_eq_self _ _ _ aw bw, ← hwx]
  simp only [sanitizeColorStep, hc, hp, hmap]
  rw [show some ({ c with palette := some pal }) = a.colors by rw [← hp]; exact hc.symm]

/-- Counterexample for C3: the claim includes fully-populated valid inputs
whose emotion sub-object carries a secondary list, but on such an input the
sanitizer raises `KeyError('secondary')` instead of returning the input
unchanged. -/
theorem C3_identity_counterexample :
    validate_and_sanitize_analysis fullValidWithSec = .error (.keyError (str "secondary")) ∧
    validate_and_sanitize_analysis fullValidWithSec ≠ .ok fullValidWithSec := by
  refine ⟨rfl, ?_⟩
  intro h
  rw [show validate_and_sanitize_analysis fullValidWithSec
        = .error (.keyError (str "secondary")) from rfl] at h
  cases h

/-- C3 (amended).  The sanitizer is the identity on every fully-populated
analysis whose numeric fields are in range, provided the emotion sub-object
has no secondary-emotions list (with one, the sanitizer raises instead). -/
theorem C3_sanitizer_identity (a : Analysis) (h : isValidFullNoSec a = true) :
    validate_and_sanitize_analysis a = .ok a := by
  simp only [isValidFullNoSec, Bool.and_eq_true] at h
  obtain ⟨⟨⟨⟨⟨⟨⟨-, -⟩, -⟩, hemo⟩, hani⟩, htyp⟩, hlay⟩, hcol⟩ := h
  cases he : a.emotion with
  | none => rw [he] at hemo; cases hemo
  | some e =>
  rw [he] at hemo
  simp only [validEmotionNoSecB, Bool.and_eq_true] at hemo
  obtain ⟨⟨-, hsec⟩, hint⟩ := hemo
  cases han : a.animation with
  | none => rw [han] at hani; cases hani
  | some an =>
  rw [han] at hani
  cases htp : a.typography with
  | none => rw [htp] at htyp; cases htyp
  | some t =>
  rw [htp] at htyp
  cases hla : a.layout with
  | none => rw [hla] at hlay; cases hlay
  | some l =>
  rw [hla] at hlay
  cases hco : a.colors with
  | none => rw [hco] at hcol; cases hcol
  | some c =>
  rw [hco] at hcol
  have hsecn : e.secondary = none := Option.isNone_iff_eq_none.mp hsec
  have hani' : validAnimB an = true := hani
  have htyp' : validTypoB t = true := htyp
  have hlay' : validLayoutB l = true := hlay
  have hcol' : validColorsB c = true := hcol
  unfold validate_and_sanitize_analysis
  rw [sanitizeEmotionStep_id a e he hsecn hint]
  show Except.ok (sanitizeColorStep (sanitizeLayoutStep (sanitizeTypoStep (sanitizeAnimStep a))))
    = Except.ok a
  rw [sanitizeAnimStep_id a an han hani', sanitizeTypoStep_id a t htp htyp',
    sanitizeLayoutStep_id a l hla hlay', sanitizeColorStep_id a c hco hcol']

/-- Witness for C3: the amended identity applied to the concrete valid
analysis without a secondary list. -/
theorem C3_sanitizer_identity_witness :
    validate_and_sanitize_analysis fullValidNoSec = .ok fullValidNoSec := by
  apply C3_sanitizer_identity
  simp only [isValidFullNoSec, fullValidNoSec, fullValidWithSec, validEmotionNoSecB,
    validAnimB, validTimingB, validTypoB, validLayoutB, validColorsB, validColorEntryB,
    okB, List.all_cons, List.all_nil, Bool.and_eq_true, decide_eq_true_eq]
  norm_num

theorem char_toNat_ofNat {n : ℕ} (h : n.isValidChar) : (Char.ofNat n).toNat = n := by
  rw [Char.ofNat, dif_pos h]
  unfold Char.ofNatAux Char.toNat
  show (UInt32.ofNat' n _).toNat = n
  simp [UInt32.ofNat', UInt32.toNat, BitVec.toNat_ofNatLt]

theorem char_le_toNat {a b : Char} (h : a ≤ b) : a.toNat ≤ b.toNat := h

/-- Lowercasing cannot produce or consume a character whose code point is
below 65 (such as CR = 13 and LF = 10). -/
theorem pyLowerCh_eq_low (c : Char) {r : Char} (hr : r.toNat < 65) :
    pyLowerCh c = r ↔ c = r := by
  unfold pyLowerCh
  by_cases hc : ('A' ≤ c && c ≤ 'Z') = true
  · rw [if_pos hc]
    simp only [Bool.and_eq_true, decide_eq_true_eq] at hc
    have h1 : 65 ≤ c.toNat := char_le_toNat hc.1
    have h2 : c.toNat ≤ 90 := char_le_toNat hc.2
    have hv : (c.toNat + 32).isValidChar := Or.inl (by omega)
    constructor
    · intro heq
      have := congrArg Char.toNat heq
      rw [char_toNat_ofNat hv] at this
      omega
    · intro heq
      have := congrArg Char.toNat heq
      omega
  · rw [if_neg hc]

theorem pyLowerCh_ne_cr {c : Char} (h : c ≠ '\r') : pyLowerCh c ≠ '\r' :=
  fun heq => h ((pyLowerCh_eq_low c (by decide)).mp heq)

theorem pyLowerCh_ne_lf {c : Char} (h : c ≠ '\n') : pyLowerCh c ≠ '\n' :=
  fun heq => h ((pyLowerCh_eq_low c (by decide)).mp heq)

theorem replCRLF_crlf (l : Str) : replCRLF ('\r' :: '\n' :: l) = '\n' :: replCRLF l := by
  show (if ('\r' : Char) = '\r' ∧ ('\n' : Char) = '\n' then '\n' :: replCRLF l
        else '\r' :: replCRLF ('\n' :: l)) = '\n' :: replCRLF l
  rw [if_pos ⟨rfl, rfl⟩]

theorem replCRLF_cons_ne (c : Char) (l : Str)
    (h : c ≠ '\r' ∨ l.head? ≠ some '\n') : replCRLF (c :: l) = c :: replCRLF l := by
  cases l with
  | nil => rfl
  | cons d rest =>
    have hne : ¬(c = '\r' ∧ d = '\n') := by
      rintro ⟨rfl, rfl⟩
      rcases h with h | h
      · exact h rfl
      · exact h rfl
    show (if c = '\r' ∧ d = '\n' then '\n' :: replCRLF rest
          else c :: replCRLF (d :: rest)) = c :: replCRLF (d :: rest)
    rw [if_neg hne]

theorem normTail_cons {c : Char} (hc : c ≠ '\r') (l : Str) :
    normTail (c :: l) = pyLowerCh c :: normTail l := by
  unfold normTail pyLowerStr
  rw [List.map_cons, replCRLF_cons_ne _ _ (Or.inl (pyLowerCh_ne_cr hc))]
  unfold replCR
  rw [List.map_cons, if_neg (pyLowerCh_ne_cr hc)]

theorem normTail_nltok {s l : Str} (h : NLTok s l) :
    normTail (s ++ l) = '\n' :: normTail l := by
  rcases h with rfl | rfl | ⟨rfl, hl⟩
  · show normTail ('\r' :: '\n' :: l) = '\n' :: normTail l
    unfold normTail pyLowerStr
    rw [List.map_cons, List.map_cons]
    rw [show pyLowerCh '\r' = '\r' by decide, show pyLowerCh '\n' = '\n' by decide]
    rw [replCRLF_crlf]
    unfold replCR
    rw [List.map_cons, if_neg (by decide : ¬('\n' : Char) = '\r')]
  · show normTail ('\n' :: l) = '\n' :: normTail l
    rw [normTail_cons (by decide) l, show pyLowerCh '\n' = '\n' by decide]
  · show normTail ('\r' :: l) = '\n' :: normTail l
    unfold normTail pyLowerStr
    rw [List.map_cons, show pyLowerCh '\r' = '\r' by decide]
    have hmap : (List.map pyLowerCh l).head? ≠ some '\n' := by
      cases l with
      | nil => simp
      | cons x xs =>
        simp only [List.map_cons, List.head?_cons, ne_eq, Option.some.injEq]
        intro hx
        exact hl (by simp [List.head?_cons, (pyLowerCh_eq_low x (by decide)).mp hx])
    rw [replCRLF_cons_ne _ _ (Or.inr hmap)]
    unfold replCR
    rw [List.map_cons, if_pos rfl]

theorem poemEquiv_normTail {x y : Str} (h : PoemEquiv x y) : normTail x = normTail y := by
  induction h with
  | nil => rfl
  | ch hc1 hc2 hd1 hd2 hlow _ ih =>
    rw [normTail_cons hc1, normTail_cons hd1, hlow, ih]
  | nl hs ht _ ih =>
    rw [normTail_nltok hs, normTail_nltok ht, ih]

/-- C8.  Two poems whose stripped forms differ only by letter case and by
line-ending choice (CRLF / lone CR / LF) get the same SHA-256 cache key;
the `pyStrip` hypothesis is exactly "differ only in leading/trailing
whitespace". -/
theorem C8_cache_key_normalization (p q : Str)
    (h : PoemEquiv (pyStrip p) (pyStrip q)) :
    generate_cache_key p = generate_cache_key q := by
  have hn : normalizePoem p = normalizePoem q := poemEquiv_normTail h
  unfold generate_cache_key
  rw [hn]

/-- Witness for C8: `" A\r\nB"` and `"a\nb"` hash to the same cache key. -/
theorem C8_cache_key_normalization_witness :
    generate_cache_key (str " A\r\nB") = generate_cache_key (str "a\nb") := by
  apply C8_cache_key_normalization
  rw [show pyStrip (str " A\r\nB") = 'A' :: '\r' :: '\n' :: ['B'] by decide,
    show pyStrip (str "a\nb") = 'a' :: '\n' :: ['b'] by decide]
  refine PoemEquiv.ch (by decide) (by decide) (by decide) (by decide) (by decide) ?_
  refine @PoemEquiv.nl (['\r', '\n']) (['\n']) (['B']) (['b']) (Or.inl rfl)
    (Or.inr (Or.inl rfl)) ?_
  exact PoemEquiv.ch (by decide) (by decide) (by decide) (by decide) (by decide) PoemEquiv.nil

theorem dropWhile_append_all {α : Type} (p : α → Bool) (l1 l2 : List α)
    (h : ∀ x ∈ l1, p x = true) : (l1 ++ l2).dropWhile p = l2.dropWhile p := by
  induction l1 with
  | nil => rfl
  | cons a t ih =>
    simp only [List.cons_append, List.dropWhile_cons]
    rw [if_pos (h a (by simp))]
    exact ih fun x hx => h x (by simp [hx])

/-- Counterexample for C6: `c6Bad` contains the balanced object `c6Obj`
(which parses), yet the extraction signals a parse failure, because the
greedy span runs to the last closing brace and `'\x7b"a": 1\x7d\x7d'` is
not valid JSON. -/
theorem C6_extraction_counterexample :
    (∃ v, json_loads c6Obj = some v) ∧
    c6Bad = c6Obj ++ [rbrace] ∧
    extract_json_from_response c6Bad = .error (str "Failed to parse Claude response as JSON") := by
  refine ⟨⟨_, rfl⟩, by decide, rfl⟩

/-- C6 (amended).  The extraction takes the greedy span from the first
opening brace to the last closing brace and parses that, so it returns the
parse of a balanced JSON object exactly when the prose before it contains
no opening brace and the prose after it contains no closing brace; stray
braces in the surrounding prose (as in `c6Bad`) make the span unparsable
and a failure is signalled even though a balanced object is present. -/
theorem mem_of_getLast?_some {α : Type} {l : List α} {a : α}
    (h : l.getLast? = some a) : a ∈ l := by
  induction l with
  | nil => cases h
  | cons x xs ih =>
    cases xs with
    | nil =>
      rw [show ([x] : List α).getLast? = some x from rfl] at h
      rw [← Option.some.inj h]
      exact List.mem_singleton_self x
    | cons y ys =>
      rw [List.getLast?_cons_cons] at h
      exact List.mem_cons_of_mem x (ih h)

/-- C6 (amended).  The extraction takes the greedy span from the first
opening brace to the last closing brace and parses that, so it returns the
parse of a balanced JSON object exactly when the prose before it contains
no opening brace and the prose after it contains no closing brace; stray
braces in the surrounding prose (as in `c6Bad`) make the span unparsable
and a failure is signalled even though a balanced object is present. -/
theorem C6_extraction_greedy (p o q : Str) (v : Json)
    (hp : lbrace ∉ p) (hq : rbrace ∉ q)
    (h1 : o.head? = some lbrace) (h2 : o.getLast? = some rbrace)
    (hv : json_loads o = some v) :
    extract_json_from_response (p ++ o ++ q) = .ok v := by
  obtain ⟨o', rfl⟩ : ∃ o', o = lbrace :: o' := by
    cases o with
    | nil => cases h1
    | cons x xs => exact ⟨xs, by rw [Option.some.inj h1]⟩
  cases o' with
  | nil =>
    rw [show ([lbrace] : Str).getLast? = some lbrace from rfl] at h2
    exact absurd (Option.some.inj h2) (by decide)
  | cons b t =>
  rw [List.getLast?_cons_cons] at h2
  have hspan : greedySpan (p ++ (lbrace :: b :: t) ++ q) = some (lbrace :: b :: t) := by
    unfold greedySpan
    rw [List.append_assoc]
    rw [dropWhile_append_all _ p _
      (fun x hx => decide_eq_true (show x ≠ lbrace from fun he => hp (he ▸ hx)))]
    rw [show (lbrace :: b :: t) ++ q = lbrace :: ((b :: t) ++ q) from rfl]
    rw [List.dropWhile_cons, if_neg (by simp)]
    have hmem : rbrace ∈ (b :: t) ++ q :=
      List.mem_append_left q (mem_of_getLast?_some h2)
    show (if rbrace ∈ (b :: t) ++ q then
            some (lbrace ::
              (List.dropWhile (fun x => decide (x ≠ rbrace)) ((b :: t) ++ q).reverse).reverse)
          else none) = some (lbrace :: b :: t)
    rw [if_pos hmem]
    have hrevq : ((b :: t) ++ q).reverse = q.reverse ++ (b :: t).reverse :=
      List.reverse_append ..
    rw [hrevq]
    rw [dropWhile_append_all _ q.reverse _
      (fun x hx => decide_eq_true
        (show x ≠ rbrace from fun he => hq (he ▸ List.mem_reverse.mp hx)))]
    obtain ⟨rr, hrr⟩ : ∃ rr, (b :: t).reverse = rbrace :: rr := by
      cases hrev : (b :: t).reverse with
      | nil => exact absurd (congrArg List.length hrev) (by simp)
      | cons z zs =>
        have : (b :: t).reverse.head? = some z := by rw [hrev]; rfl
        rw [List.head?_reverse, h2] at this
        exact ⟨zs, congrArg (· :: zs) (Option.some.inj this).symm⟩
    rw [hrr, List.dropWhile_cons, if_neg (by simp), ← hrr, List.reverse_reverse]
  unfold extract_json_from_response
  rw [hspan]
  show (match json_loads (lbrace :: b :: t) with
        | some j => Except.ok j
        | none => Except.error (str "Failed to parse Claude response as JSON")) = .ok v
  rw [hv]

/-- Witness for C6 (amended): prose without stray braces around `c6Obj`. -/
theorem C6_extraction_greedy_witness :
    ∃ v, extract_json_from_response (str "Result: " ++ c6Obj ++ str " done.") = .ok v :=
  ⟨_, C6_extraction_greedy (str "Result: ") c6Obj (str " done.") _
    (by decide) (by decide) (by decide) (by decide) rfl⟩

/-- Every failure of `analyze_theme_with_bedrock` is a generic exception. -/
theorem bedrock_err_generic (o : BedrockOutcome) :
    (∃ d, analyze_theme_with_bedrock o = .ok d) ∨
    (∃ m, analyze_theme_with_bedrock o = .error (.generic m)) := by
  cases o with
  | success d =>
    cases hs : validate_and_sanitize_analysis d with
    | ok d' => exact Or.inl ⟨d', by simp [analyze_theme_with_bedrock, hs]⟩
    | error e =>
      exact Or.inr ⟨str "Failed to complete theme analysis.",
        by simp [analyze_theme_with_bedrock, hs]⟩
  | clientErr c m => exact Or.inr ⟨_, rfl⟩
  | botoCoreErr m => exact Or.inr ⟨_, rfl⟩
  | otherErr m => exact Or.inr ⟨_, rfl⟩

/-- Counterexample for C4: with the model call failing `AccessDenied` on
every attempt, the wrapper sleeps twice and makes three attempts (the
`AccessDeniedException` was converted to a generic exception by
`analyze_theme_with_bedrock`, so the wrapper's no-retry `ClientError`
branch never sees it), instead of propagating immediately without retry
as the claim states. -/
theorem C4_retry_counterexample :
    (themeRetry c4Oracle (fun _ => 0)).2.length = 2 ∧
    (themeRetry c4Oracle (fun _ => 0)).1
      = .error (.generic (str "Access denied to analysis service.")) := by
  constructor <;> rfl

/-- C4 (amended).  (1) The deployed pipeline makes at most 3 attempts;
(2) every delay it sleeps is `min(BASE_DELAY * 2^k, MAX_DELAY)` with no
jitter (the jittered throttling branch is dead for the deployed call);
(3) every first-attempt failure - including InvalidRequest and
AccessDenied - is retried at least once; (4) the wrapper itself does
propagate a raw non-throttling `ClientError` immediately without retry,
but the model call never delivers one; (5) a raw throttling `ClientError`
is retried with jitter. -/
theorem C4_retry_policy :
    (∀ (o : ℕ → BedrockOutcome) (j : ℕ → ℚ),
      (themeRetry o j).2.length + 1 ≤ MAX_RETRIES ∧
      (∀ k, (hk : k < (themeRetry o j).2.length) →
        (themeRetry o j).2.get ⟨k, hk⟩ = min (BASE_DELAY * 2 ^ k) MAX_DELAY) ∧
      (∀ e, analyze_theme_with_bedrock (o 0) = .error e →
        1 ≤ (themeRetry o j).2.length)) ∧
    (∀ (call : ℕ → Except PyExn Analysis) (j : ℕ → ℚ) (c : AwsErrCode) (m : Str),
      call 0 = .error (.clientError c m) → c ≠ .throttling →
      analyze_theme_with_retry call j = (.error (.clientError c m), [])) ∧
    (∀ (call : ℕ → Except PyExn Analysis) (j : ℕ → ℚ) (m : Str) (d : Analysis),
      call 0 = .error (.clientError .throttling m) → call 1 = .ok d →
      analyze_theme_with_retry call j
        = (.ok d, [min (BASE_DELAY * 2 ^ 0 + j 0) MAX_DELAY])) := by
  refine ⟨?_, ?_, ?_⟩
  · intro o j
    have h0 := bedrock_err_generic (o 0)
    have h1 := bedrock_err_generic (o 1)
    have h2 := bedrock_err_generic (o 2)
    rcases h0 with ⟨d0, hc0⟩ | ⟨m0, hc0⟩
    · have : themeRetry o j = (.ok d0, []) := by
        simp [themeRetry, analyze_theme_with_retry, retryGo, MAX_RETRIES, hc0]
      rw [this]
      refine ⟨by simp [MAX_RETRIES], ?_, ?_⟩
      · intro k hk; cases hk
      · intro e he; rw [hc0] at he; cases he
    · rcases h1 with ⟨d1, hc1⟩ | ⟨m1, hc1⟩
      · have : themeRetry o j = (.ok d1, [min (BASE_DELAY * 2 ^ 0) MAX_DELAY]) := by
          simp [themeRetry, analyze_theme_with_retry, retryGo, MAX_RETRIES, hc0, hc1]
        rw [this]
        refine ⟨by simp [MAX_RETRIES], ?_, fun e _ => by simp⟩
        intro k hk
        simp only [List.length_cons, List.length_nil] at hk
        interval_cases k <;> rfl
      · rcases h2 with ⟨d2, hc2⟩ | ⟨m2, hc2⟩
        · have : themeRetry o j = (.ok d2,
              [min (BASE_DELAY * 2 ^ 0) MAX_DELAY, min (BASE_DELAY * 2 ^ 1) MAX_DELAY]) := by
            simp [themeRetry, analyze_theme_with_retry, retryGo, MAX_RETRIES, hc0, hc1, hc2]
          rw [this]
          refine ⟨by simp [MAX_RETRIES], ?_, fun e _ => by simp⟩
          intro k hk
          simp only [List.length_cons, List.length_nil] at hk
          interval_cases k <;> rfl
        · have : themeRetry o j = (.error (.generic m2),
              [min (BASE_DELAY * 2 ^ 0) MAX_DELAY, min (BASE_DELAY * 2 ^ 1) MAX_DELAY]) := by
            simp [themeRetry, analyze_theme_with_retry, retryGo, MAX_RETRIES, hc0, hc1, hc2]
          rw [this]
          refine ⟨by simp [MAX_RETRIES], ?_, fun e _ => by simp⟩
          intro k hk
          simp only [List.length_cons, List.length_nil] at hk
          interval_cases k <;> rfl
  · intro call j c m hc0 hct
    simp [analyze_theme_with_retry, retryGo, MAX_RETRIES, hc0, hct]
  · intro call j m d hc0 hc1
    simp [analyze_theme_with_retry, retryGo, MAX_RETRIES, hc0, hc1]

/-- Witness for C4 (amended): the all-AccessDenied run makes 3 attempts
(2 sleeps), and the wrapper propagates a raw non-throttling ClientError
with no sleeps. -/
theorem C4_retry_policy_witness :
    (themeRetry c4Oracle (fun _ => 0)).2.length + 1 ≤ MAX_RETRIES ∧
    analyze_theme_with_retry (fun _ => .error (.clientError .accessDenied (str "x")))
      (fun _ => 0) = (.error (.clientError .accessDenied (str "x")), []) := by
  constructor
  · exact (C4_retry_policy.1 c4Oracle (fun _ => 0)).1
  · exact C4_retry_policy.2.1 (fun _ => .error (.clientError .accessDenied (str "x")))
      (fun _ => 0) .accessDenied (str "x") rfl (by decide)

/-- Counterexample for C7: for `(dance, golden, leaves)` the verb lookup
says `energetic`, but the returned theme's style is `calm` - the verb
lookup's result is only logged, never stored. -/
theorem C7_fallback_style_counterexample :
    c7Poem.theme.animations.style = str "calm" ∧
    animation_style_from_verb (str "dance") = str "energetic" ∧
    c7Poem.theme.animations.style ≠ animation_style_from_verb (str "dance") := by
  refine ⟨rfl, rfl, ?_⟩
  intro h
  rw [show c7Poem.theme.animations.style = str "calm" from rfl] at h
  rw [show animation_style_from_verb (str "dance") = str "energetic" from rfl] at h
  exact absurd h (by decide)

/-- C7 (amended).  The fallback poem's returned `theme.animations.style`
is a function of the ADJECTIVE: `dramatic` when the adjective maps to the
emotion `intense` (adjective `fierce`), `mystical` when it maps to
`mysterious` or `ethereal` (adjectives `dark` and `light`), and `calm`
otherwise.  The verb-keyed lookup exists in the source but its result is
only logged; the rhythm-based `energetic` branch of the transform never
fires because the fallback's rhythm type is the two-word
`iambic tetrameter`. -/
theorem C7_fallback_style (v a n : Str) :
    (generate_enhanced_fallback_poem v a n).theme.animations.style
      = fallback_theme_style_from_adjective a := by
  unfold generate_enhanced_fallback_poem extract_simple_theme_from_analysis
    transform_analysis_for_frontend fallback_analysis_data fallback_theme_style_from_adjective
  dsimp only [Option.bind, Option.getD]
  rw [if_neg (by decide :
    ¬(str "iambic tetrameter" = str "iambic" ∨ str "iambic tetrameter" = str "trochaic"))]
  by_cases hb : fallback_primary_emotion a = str "dramatic" ∨
      fallback_primary_emotion a = str "intense"
  · rw [if_pos hb, if_pos (by decide :
      str "dramatic" ∈ [str "calm", str "energetic", str "dramatic", str "mystical"])]
  · rw [if_neg hb]
    by_cases hc : fallback_primary_emotion a = str "mysterious" ∨
        fallback_primary_emotion a = str "ethereal"
    · rw [if_pos hc, if_pos (by decide :
        str "mystical" ∈ [str "calm", str "energetic", str "dramatic", str "mystical"])]
    · rw [if_neg hc, if_pos (by decide :
        str "calm" ∈ [str "calm", str "energetic", str "dramatic", str "mystical"])]

theorem validate_field_none_iff (now : Str) (b : BodyDict) (f : Str) :
    validate_field now b f = none ↔
      ∃ s, getVal b f = some (.vstr s) ∧ pyStrip s ≠ [] ∧ (pyStrip s).length ≤ 50 := by
  cases hv : getVal b f with
  | none => simp [validate_field, hv]
  | some rv =>
    cases rv with
    | vother => simp [validate_field, hv]
    | vstr s =>
      simp only [validate_field, hv]
      constructor
      · intro h
        by_cases he : pyStrip s = []
        · rw [if_pos he] at h; cases h
        · rw [if_neg he] at h
          by_cases hl : 50 < (pyStrip s).length
          · rw [if_pos hl] at h; cases h
          · exact ⟨s, rfl, he, by omega⟩
      · rintro ⟨s', hs', he, hl⟩
        obtain rfl : s = s' := by
          have := Option.some.inj hs'
          cases this
          rfl
        rw [if_neg he, if_neg (by omega)]

theorem validate_field_some_code (now : Str) (b : BodyDict) (f : Str) (c : Str)
    (h : fieldCode b f = some c) :
    ∃ msg, validate_field now b f = some (create_error_response 400 c msg now) := by
  cases hv : getVal b f with
  | none =>
    simp only [fieldCode, hv] at h
    simp only [validate_field, hv]
    exact ⟨_, by rw [Option.some.inj h]⟩
  | some rv =>
    cases rv with
    | vother =>
      simp only [fieldCode, hv] at h
      simp only [validate_field, hv]
      exact ⟨_, by rw [Option.some.inj h]⟩
    | vstr s =>
      simp only [fieldCode, hv] at h
      simp only [validate_field, hv]
      by_cases he : pyStrip s = []
      · rw [if_pos he] at h
        rw [if_pos he]
        exact ⟨_, by rw [Option.some.inj h]⟩
      · rw [if_neg he] at h
        rw [if_neg he]
        by_cases hl : 50 < (pyStrip s).length
        · rw [if_pos hl] at h
          rw [if_pos hl]
          exact ⟨_, by rw [Option.some.inj h]⟩
        · rw [if_neg hl] at h
          exact Option.noConfusion h

theorem validate_field_none_of_code_none (now : Str) (b : BodyDict) (f : Str)
    (h : fieldCode b f = none) : validate_field now b f = none := by
  cases hv : getVal b f with
  | none => simp only [fieldCode, hv] at h; exact Option.noConfusion h
  | some rv =>
    cases rv with
    | vother => simp only [fieldCode, hv] at h; exact Option.noConfusion h
    | vstr s =>
      simp only [fieldCode, hv] at h
      simp only [validate_field, hv]
      by_cases he : pyStrip s = []
      · rw [if_pos he] at h; cases h
      · rw [if_neg he] at h
        by_cases hl : 50 < (pyStrip s).length
        · rw [if_pos hl] at h; cases h
        · rw [if_neg he, if_neg hl]

/-- C9.  (1) Generation input is accepted exactly when verb, adjective and
noun are all present, strings, non-blank, and at most 50 characters after
trimming; (2) theme input is accepted exactly when `poem` is present, a
string, non-blank, and the RAW text is at most 5000 characters; (3)-(6)
each theme violation yields the 400 response with its matching code
(MISSING_POEM for an absent field, INVALID_TYPE, EMPTY_POEM,
POEM_TOO_LONG); (7) each generation violation yields the 400 response
whose code matches the first violated check in field order. -/
theorem C9_input_validation :
    (∀ now b, validate_input now b = none ↔
      ∀ f ∈ [str "verb", str "adjective", str "noun"],
        ∃ s, getVal b f = some (.vstr s) ∧ pyStrip s ≠ [] ∧ (pyStrip s).length ≤ 50) ∧
    (∀ now b, validate_input_theme now b = none ↔
      ∃ s, getVal b (str "poem") = some (.vstr s) ∧ pyStrip s ≠ [] ∧ s.length ≤ 5000) ∧
    (∀ now b, getVal b (str "poem") = none →
      validate_input_theme now b = some (create_error_response 400 (str "MISSING_POEM")
        (str "Field \"poem\" is required") now)) ∧
    (∀ now b, getVal b (str "poem") = some .vother →
      validate_input_theme now b = some (create_error_response 400 (str "INVALID_TYPE")
        (str "Field \"poem\" must be a string") now)) ∧
    (∀ now b s, getVal b (str "poem") = some (.vstr s) → pyStrip s = [] →
      validate_input_theme now b = some (create_error_response 400 (str "EMPTY_POEM")
        (str "Poem cannot be empty") now)) ∧
    (∀ now b s, getVal b (str "poem") = some (.vstr s) → pyStrip s ≠ [] → 5000 < s.length →
      validate_input_theme now b = some (create_error_response 400 (str "POEM_TOO_LONG")
        (str "Poem must be 5000 characters or less") now)) ∧
    (∀ now b c, gen_first_violation_code b = some c →
      ∃ msg, validate_input now b = some (create_error_response 400 c msg now)) := by
  refine ⟨?_, ?_, ?_, ?_, ?_, ?_, ?_⟩
  · intro now b
    unfold validate_input
    constructor
    · intro h
      intro f hf
      cases hcv : validate_field now b (str "verb") with
      | some r => rw [hcv] at h; cases h
      | none =>
      rw [hcv] at h
      cases hca : validate_field now b (str "adjective") with
      | some r => rw [hca] at h; cases h
      | none =>
      rw [hca] at h
      have hcn := h
      simp only [List.mem_cons, List.not_mem_nil, or_false] at hf
      rcases hf with rfl | rfl | rfl
      · exact (validate_field_none_iff now b _).mp hcv
      · exact (validate_field_none_iff now b _).mp hca
      · exact (validate_field_none_iff now b _).mp hcn
    · intro h
      have h1 := (validate_field_none_iff now b (str "verb")).mpr (h _ (by simp))
      have h2 := (validate_field_none_iff now b (str "adjective")).mpr (h _ (by simp))
      have h3 := (validate_field_none_iff now b (str "noun")).mpr (h _ (by simp))
      rw [h1, h2]
      exact h3
  · intro now b
    cases hv : getVal b (str "poem") with
    | none => simp [validate_input_theme, hv]
    | some rv =>
      cases rv with
      | vother => simp [validate_input_theme, hv]
      | vstr s =>
        simp only [validate_input_theme, hv]
        constructor
        · intro h
          by_cases he : pyStrip s = []
          · rw [if_pos he] at h; cases h
          · rw [if_neg he] at h
            by_cases hl : 5000 < s.length
            · rw [if_pos hl] at h; cases h
            · exact ⟨s, rfl, he, by omega⟩
        · rintro ⟨s', hs', he, hl⟩
          obtain rfl : s = s' := by
            have := Option.some.inj hs'
            cases this
            rfl
          rw [if_neg he, if_neg (by omega)]
  · intro now b h
    simp only [validate_input_theme, h]
  · intro now b h
    simp only [validate_input_theme, h]
  · intro now b s h he
    simp only [validate_input_theme, h]
    rw [if_pos he]
  · intro now b s h he hl
    simp only [validate_input_theme, h]
    rw [if_neg he, if_pos hl]
  · intro now b c h
    unfold gen_first_violation_code at h
    unfold validate_input
    cases hcv : fieldCode b (str "verb") with
    | some cv =>
      rw [hcv] at h
      obtain rfl : cv = c := Option.some.inj h
      obtain ⟨msg, hm⟩ := validate_field_some_code now b (str "verb") cv hcv
      exact ⟨msg, by rw [hm]⟩
    | none =>
      rw [hcv] at h
      rw [validate_field_none_of_code_none now b _ hcv]
      cases hca : fieldCode b (str "adjective") with
      | some ca =>
        rw [hca] at h
        obtain rfl : ca = c := Option.some.inj h
        obtain ⟨msg, hm⟩ := validate_field_some_code now b (str "adjective") ca hca
        exact ⟨msg, by rw [hm]⟩
      | none =>
        rw [hca] at h
        rw [validate_field_none_of_code_none now b _ hca]
        exact validate_field_some_code now b (str "noun") c h

/-- Witness for C9: a body without a `poem` field gets the 400
MISSING_POEM response, and a body with a blank verb gets the 400
EMPTY_FIELD response. -/
theorem C9_input_validation_witness :
    validate_input_theme (str "T") [] = some (create_error_response 400 (str "MISSING_POEM")
      (str "Field \"poem\" is required") (str "T")) ∧
    ∃ msg, validate_input (str "T") [(str "verb", .vstr (str " ")),
        (str "adjective", .vstr (str "golden")), (str "noun", .vstr (str "leaves"))]
      = some (create_error_response 400 (str "EMPTY_FIELD") msg (str "T")) := by
  constructor
  · exact C9_input_validation.2.2.1 (str "T") [] rfl
  · exact C9_input_validation.2.2.2.2.2.2 (str "T") _ (str "EMPTY_FIELD") rfl

/-- If every attempt's call fails, the retry loop returns an error (for
any fuel, attempt counter and carried exception). -/
theorem retryGo_err_of_all_fail (call : ℕ → Except PyExn Analysis) (j : ℕ → ℚ)
    (h : ∀ n, ∃ e, call n = .error e) :
    ∀ fuel attempt last, ∃ e, (retryGo call j attempt fuel last).1 = .error e := by
  intro fuel
  induction fuel with
  | zero => intro attempt last; exact ⟨last, rfl⟩
  | succ f ih =>
    intro attempt last
    obtain ⟨e, he⟩ := h attempt
    cases e with
    | clientError c m =>
      simp only [retryGo, he]
      by_cases hc : c = .throttling ∧ attempt < MAX_RETRIES - 1
      · rw [if_pos hc]
        exact ih (attempt + 1) _
      · rw [if_neg hc]
        exact ⟨_, rfl⟩
    | generic m =>
      simp only [retryGo, he]
      by_cases hc : attempt < MAX_RETRIES - 1
      · rw [if_pos hc]
        exact ih (attempt + 1) _
      · rw [if_neg hc]
        exact ⟨_, rfl⟩

/-- Every response `validate_field` produces is a `create_response`. -/
theorem validate_field_shape (now : Str) (b : BodyDict) (f : Str) (r : Response)
    (h : validate_field now b f = some r) : ∃ sc p, r = create_response sc p := by
  cases hv : getVal b f with
  | none =>
    simp only [validate_field, hv] at h
    exact ⟨_, _, (Option.some.inj h).symm⟩
  | some rv =>
    cases rv with
    | vother =>
      simp only [validate_field, hv] at h
      exact ⟨_, _, (Option.some.inj h).symm⟩
    | vstr s =>
      simp only [validate_field, hv] at h
      by_cases he : pyStrip s = []
      · rw [if_pos he] at h
        exact ⟨_, _, (Option.some.inj h).symm⟩
      · rw [if_neg he] at h
        by_cases hl : 50 < (pyStrip s).length
        · rw [if_pos hl] at h
          exact ⟨_, _, (Option.some.inj h).symm⟩
        · rw [if_neg hl] at h
          exact Option.noConfusion h

/-- Every response `validate_input` produces is a `create_response`. -/
theorem validate_input_shape (now : Str) (b : BodyDict) (r : Response)
    (h : validate_input now b = some r) : ∃ sc p, r = create_response sc p := by
  unfold validate_input at h
  cases hcv : validate_field now b (str "verb") with
  | some r' =>
    rw [hcv] at h
    exact (Option.some.inj h) ▸ validate_field_shape now b _ r' hcv
  | none =>
    rw [hcv] at h
    cases hca : validate_field now b (str "adjective") with
    | some r' =>
      rw [hca] at h
      exact (Option.some.inj h) ▸ validate_field_shape now b _ r' hca
    | none =>
      rw [hca] at h
      exact validate_field_shape now b _ r h

/-- Every response `validate_input` of the theme analyzer produces is a
`create_response`. -/
theorem validate_input_theme_shape (now : Str) (b : BodyDict) (r : Response)
    (h : validate_input_theme now b = some r) : ∃ sc p, r = create_response sc p := by
  cases hv : getVal b (str "poem") with
  | none =>
    simp only [validate_input_theme, hv] at h
    exact ⟨_, _, (Option.some.inj h).symm⟩
  | some rv =>
    cases rv with
    | vother =>
      simp only [validate_input_theme, hv] at h
      exact ⟨_, _, (Option.some.inj h).symm⟩
    | vstr s =>
      simp only [validate_input_theme, hv] at h
      by_cases he : pyStrip s = []
      · rw [if_pos he] at h
        exact ⟨_, _, (Option.some.inj h).symm⟩
      · rw [if_neg he] at h
        by_cases hl : 5000 < s.length
        · rw [if_pos hl] at h
          exact ⟨_, _, (Option.some.inj h).symm⟩
        · rw [if_neg hl] at h
          exact Option.noConfusion h

/-- C5.  On an ordinary POST whose body parses and validates, when the
model call ultimately fails the poem handler returns HTTP 200 with the
success payload built from the deterministic fallback generator (success
true, cached false), whereas the theme handler returns the HTTP 500
INTERNAL_ERROR response (success false); neither endpoint fails the
request in the other endpoint's way. -/
theorem C5_fallback_asymmetry :
    (∀ (ev : Event) (o : PoemOracle) (bs : Str) (body : BodyDict),
      ev.httpMethod ≠ some (str "OPTIONS") →
      ¬(ev.httpMethod = some (str "GET") ∧ endsWithStr (ev.path.getD []) (str "/health")) →
      ev.body = some bs → bs ≠ [] →
      o.parsed = some body →
      validate_input o.now body = none →
      (∀ c, o.cacheGet ≠ .ok (some c)) →
      o.bedrock = .error () →
      PoemLambda.lambda_handler ev o
        = create_response 200 (successPayload
            (poemDataToJson (generate_enhanced_fallback_poem
              (pyLowerStr (pyStrip (getStrVal body (str "verb"))))
              (pyLowerStr (pyStrip (getStrVal body (str "adjective"))))
              (pyLowerStr (pyStrip (getStrVal body (str "noun")))))) false o.now)) ∧
    (∀ (ev : Event) (o : ThemeOracle) (bs : Str) (body : BodyDict),
      ev.httpMethod ≠ some (str "OPTIONS") →
      ev.body = some bs → bs ≠ [] →
      o.parsed = some body →
      validate_input_theme o.now body = none →
      o.cacheGet = none →
      (∀ n, ∃ e, analyze_theme_with_bedrock (o.outcomes n) = .error e) →
      ThemeLambda.lambda_handler ev o
        = create_error_response 500 (str "INTERNAL_ERROR")
            (str "Failed to analyze theme") o.now) := by
  constructor
  · intro ev o bs body h1 h2 hb hbs hp hv hcg hbed
    cases hcg2 : o.cacheGet with
    | ok oc =>
      cases oc with
      | some c => exact absurd hcg2 (hcg c)
      | none =>
        simp only [PoemLambda.lambda_handler, hb, hp, hv, hcg2, hbed]
        rw [if_neg h1, if_neg h2, if_neg hbs]
    | error u =>
      simp only [PoemLambda.lambda_handler, hb, hp, hv, hcg2, hbed]
      rw [if_neg h1, if_neg h2, if_neg hbs]
  · intro ev o bs body h1 hb hbs hp hv hcg hfail
    obtain ⟨e, he⟩ := retryGo_err_of_all_fail
      (fun n => analyze_theme_with_bedrock (o.outcomes n)) o.jitter hfail MAX_RETRIES 0
      (.generic (str "unreachable"))
    simp only [ThemeLambda.lambda_handler, hb, hp, hv, hcg, themeRetry,
      analyze_theme_with_retry, he]
    rw [if_neg h1, if_neg hbs]

/-- Witness for C5 at a concrete request: Bedrock failing, the poem
handler answers 200 with the fallback payload and the theme handler
answers 500 INTERNAL_ERROR. -/
theorem C5_fallback_asymmetry_witness :
    PoemLambda.lambda_handler c5Event c5PoemOracle
      = create_response 200 (successPayload
          (poemDataToJson (generate_enhanced_fallback_poem
            (pyLowerStr (pyStrip (getStrVal c5Body (str "verb"))))
            (pyLowerStr (pyStrip (getStrVal c5Body (str "adjective"))))
            (pyLowerStr (pyStrip (getStrVal c5Body (str "noun")))))) false (str "T")) ∧
    ThemeLambda.lambda_handler c5Event c5ThemeOracle
      = create_error_response 500 (str "INTERNAL_ERROR")
          (str "Failed to analyze theme") (str "T") := by
  constructor
  · exact C5_fallback_asymmetry.1 c5Event c5PoemOracle (str "x") c5Body
      (by decide) (by decide) rfl (by decide) rfl rfl
      (by intro c h; cases h) rfl
  · exact C5_fallback_asymmetry.2 c5Event c5ThemeOracle (str "x") c5ThemeBody
      (by decide) rfl (by decide) rfl rfl rfl
      (fun n => ⟨.generic (str "Failed to complete theme analysis."), rfl⟩)

/-- C10.  Every response either handler returns is a `create_response`,
and every `create_response` carries the fixed header set (Content-Type
application/json plus the three CORS headers) and a body that is the JSON
serialisation of its payload. -/
theorem C10_responses_uniform :
    (∀ (ev : Event) (o : PoemOracle), ∃ sc p,
      PoemLambda.lambda_handler ev o = create_response sc p) ∧
    (∀ (ev : Event) (o : ThemeOracle), ∃ sc p,
      ThemeLambda.lambda_handler ev o = create_response sc p) ∧
    (∀ sc p, (create_response sc p).headers = responseHeaders ∧
      (create_response sc p).body = json_dumps p) := by
  refine ⟨?_, ?_, fun sc p => ⟨rfl, rfl⟩⟩
  · intro ev o
    by_cases h1 : ev.httpMethod = some (str "OPTIONS")
    · exact ⟨_, _, by simp only [PoemLambda.lambda_handler]; rw [if_pos h1]; try exact rfl⟩
    · by_cases h2 : ev.httpMethod = some (str "GET") ∧
          endsWithStr (ev.path.getD []) (str "/health")
      · exact ⟨_, _, by simp only [PoemLambda.lambda_handler]; rw [if_neg h1, if_pos h2]; try exact rfl⟩
      · cases hb : ev.body with
        | none =>
          exact ⟨_, _, by simp only [PoemLambda.lambda_handler, hb]; rw [if_neg h1, if_neg h2]; try exact rfl⟩
        | some bs =>
          by_cases hbs : bs = []
          · exact ⟨_, _, by simp only [PoemLambda.lambda_handler, hb]; rw [if_neg h1, if_neg h2, if_pos hbs]; try exact rfl⟩
          · cases hp : o.parsed with
            | none =>
              exact ⟨_, _, by simp only [PoemLambda.lambda_handler, hb, hp]; rw [if_neg h1, if_neg h2, if_neg hbs]; try exact rfl⟩
            | some body =>
              cases hv : validate_input o.now body with
              | some r =>
                obtain ⟨sc, p, rfl⟩ := validate_input_shape o.now body r hv
                refine ⟨sc, p, ?_⟩
                simp only [PoemLambda.lambda_handler, hb, hp, hv]
                rw [if_neg h1, if_neg h2, if_neg hbs]
              | none =>
                cases hbed : o.bedrock with
                | ok j =>
                  cases hcg : o.cacheGet with
                  | ok oc =>
                    cases oc with
                    | some c =>
                      exact ⟨_, _, by simp only [PoemLambda.lambda_handler, hb, hp, hv, hcg]; rw [if_neg h1, if_neg h2, if_neg hbs]; try exact rfl⟩
                    | none =>
                      exact ⟨_, _, by simp only [PoemLambda.lambda_handler, hb, hp, hv, hcg, hbed]; rw [if_neg h1, if_neg h2, if_neg hbs]; try exact rfl⟩
                  | error u =>
                    exact ⟨_, _, by simp only [PoemLambda.lambda_handler, hb, hp, hv, hcg, hbed]; rw [if_neg h1, if_neg h2, if_neg hbs]; try exact rfl⟩
                | error u =>
                  cases hcg : o.cacheGet with
                  | ok oc =>
                    cases oc with
                    | some c =>
                      exact ⟨_, _, by simp only [PoemLambda.lambda_handler, hb, hp, hv, hcg]; rw [if_neg h1, if_neg h2, if_neg hbs]; try exact rfl⟩
                    | none =>
                      exact ⟨_, _, by simp only [PoemLambda.lambda_handler, hb, hp, hv, hcg, hbed]; rw [if_neg h1, if_neg h2, if_neg hbs]; try exact rfl⟩
                  | error u2 =>
                    exact ⟨_, _, by simp only [PoemLambda.lambda_handler, hb, hp, hv, hcg, hbed]; rw [if_neg h1, if_neg h2, if_neg hbs]; try exact rfl⟩
  · intro ev o
    by_cases h1 : ev.httpMethod = some (str "OPTIONS")
    · exact ⟨_, _, by simp only [ThemeLambda.lambda_handler]; rw [if_pos h1]; try exact rfl⟩
    · cases hb : ev.body with
      | none =>
        exact ⟨_, _, by simp only [ThemeLambda.lambda_handler, hb]; rw [if_neg h1]; try exact rfl⟩
      | some bs =>
        by_cases hbs : bs = []
        · exact ⟨_, _, by simp only [ThemeLambda.lambda_handler, hb]; rw [if_neg h1, if_pos hbs]; try exact rfl⟩
        · cases hp : o.parsed with
          | none =>
            exact ⟨_, _, by simp only [ThemeLambda.lambda_handler, hb, hp]; rw [if_neg h1, if_neg hbs]; try exact rfl⟩
          | some body =>
            cases hv : validate_input_theme o.now body with
            | some r =>
              obtain ⟨sc, p, rfl⟩ := validate_input_theme_shape o.now body r hv
              refine ⟨sc, p, ?_⟩
              simp only [ThemeLambda.lambda_handler, hb, hp, hv]
              rw [if_neg h1, if_neg hbs]
            | none =>
              cases hcg : o.cacheGet with
              | some c =>
                exact ⟨_, _, by simp only [ThemeLambda.lambda_handler, hb, hp, hv, hcg]; rw [if_neg h1, if_neg hbs]; try exact rfl⟩
              | none =>
                cases hr : (themeRetry o.outcomes o.jitter).1 with
                | ok analysis =>
                  exact ⟨_, _, by simp only [ThemeLambda.lambda_handler, hb, hp, hv, hcg, hr]; rw [if_neg h1, if_neg hbs]; try exact rfl⟩
                | error e =>
                  exact ⟨_, _, by simp only [ThemeLambda.lambda_handler, hb, hp, hv, hcg, hr]; rw [if_neg h1, if_neg hbs]; try exact rfl⟩

end WordWeave
